import Mathlib

/-!
Verification development for the RefDental dataset pipeline
(generate-pat-data.js, the Operations Generator and the Financial Generator).

The three scripts are shallowly embedded: JavaScript numbers are modelled by ℚ
(with Math.round as floor of x + 1/2, which is the JS rounding rule for the
values that occur here), machine integers by ℤ/ℕ, and every call of
Math.random() becomes an explicit ℚ parameter in the interval [0, 1).
Unguarded JS division, which can produce NaN or Infinity, is modelled by
jsDiv : ℚ → ℚ → Option ℚ with none standing for a non-finite result; divisions
that the source guards with a positivity test keep plain ℚ division under the
same guard.
-/

/- Batteries marks the Rat field operations irreducible, which blocks the
whnf evaluation the decide tactic performs on concrete witnesses; restore
their reducibility for this file (kernel checking is unaffected). -/
set_option allowUnsafeReducibility true
attribute [local semireducible] Rat.add Rat.mul Rat.inv Rat.sub Rat.ofScientific

namespace JsPrim

/-- Math.round, as used on the nonnegative values of these scripts:
round half toward positive infinity. -/
def jsRound (x : ℚ) : ℤ := ⌊x + 1/2⌋

/-- randomBetween(min, max) = Math.floor(Math.random() * (max - min + 1) + min),
with the Math.random() draw r made explicit. -/
def randomBetween (r : ℚ) (lo hi : ℤ) : ℤ :=
  ⌊r * ((hi : ℚ) - (lo : ℚ) + 1)⌋ + lo

/-- randomFloatBetween(min, max) at the default precision 2:
Math.round(value * 100) / 100 for value = r * (max - min) + min. -/
def randomFloatBetween (r lo hi : ℚ) : ℚ :=
  ((jsRound ((r * (hi - lo) + lo) * 100) : ℚ)) / 100

/-- JS division with a non-finite result (NaN for 0/0, Infinity otherwise)
modelled as none. -/
def jsDiv (a b : ℚ) : Option ℚ :=
  if b = 0 then none else some (a / b)

/-- arr[Math.floor(Math.random() * arr.length)] with the draw r explicit;
for r in [0, 1) the index is always in range, d is a formal default. -/
def pick {α : Type} (l : List α) (d : α) (r : ℚ) : α :=
  l.getD (⌊r * (l.length : ℚ)⌋).toNat d

/-- String(n).padStart(w, 0-character) for a natural number n. -/
def padNum (w : ℕ) (n : ℕ) : String :=
  let s := toString n
  String.mk (List.replicate (w - s.length) '0') ++ s

theorem randomBetween_le (r : ℚ) (lo hi : ℤ) (h0 : 0 ≤ r) (h1 : r < 1)
    (hlo : lo ≤ hi) : lo ≤ randomBetween r lo hi ∧ randomBetween r lo hi ≤ hi := by
  unfold randomBetween
  have hwpos : (0 : ℚ) ≤ (hi : ℚ) - (lo : ℚ) + 1 := by
    have : (lo : ℚ) ≤ (hi : ℚ) := by exact_mod_cast hlo
    linarith
  constructor
  · have : (0 : ℤ) ≤ ⌊r * ((hi : ℚ) - (lo : ℚ) + 1)⌋ := by
      apply Int.le_floor.mpr
      push_cast
      positivity
    omega
  · have hwpos2 : (0 : ℚ) < (hi : ℚ) - (lo : ℚ) + 1 := by
      have : (lo : ℚ) ≤ (hi : ℚ) := by exact_mod_cast hlo
      linarith
    have hub : r * ((hi : ℚ) - (lo : ℚ) + 1) < ((hi - lo + 1 : ℤ) : ℚ) := by
      push_cast
      calc r * ((hi : ℚ) - (lo : ℚ) + 1)
          < 1 * ((hi : ℚ) - (lo : ℚ) + 1) := mul_lt_mul_of_pos_right h1 hwpos2
        _ = (hi : ℚ) - (lo : ℚ) + 1 := one_mul _
    have : ⌊r * ((hi : ℚ) - (lo : ℚ) + 1)⌋ < hi - lo + 1 := by
      exact Int.floor_lt.mpr hub
    omega

end JsPrim

open JsPrim

/-! ## Calendar dates

The scripts format dates as YYYY-MM-DD strings and re-parse them; only the
year, the 0-based month (JS getMonth) and the day of month are ever used, so a
date is modelled by those three components directly. -/

structure JsDate where
  year : ℤ
  month : ℤ
  day : ℤ
deriving Repr, DecidableEq

namespace JsDate

/-- (currentDate.getFullYear() - lastDate.getFullYear()) * 12 +
(currentDate.getMonth() - lastDate.getMonth()), from isDueForRecall. -/
def monthsSince (lastDate currentDate : JsDate) : ℤ :=
  (currentDate.year - lastDate.year) * 12 + (currentDate.month - lastDate.month)

/-- Absolute month number of a date; monthsSince is the difference of these. -/
def monthIndex (d : JsDate) : ℤ := d.year * 12 + d.month

theorem monthsSince_eq (a b : JsDate) :
    monthsSince a b = monthIndex b - monthIndex a := by
  unfold monthsSince monthIndex; ring

/-- formatDate: date.toISOString().split(T)[0], i.e. YYYY-MM-DD with the
month printed 1-based. -/
def formatDate (d : JsDate) : String :=
  toString d.year ++ "-" ++ padNum 2 (d.month + 1).toNat ++ "-" ++ padNum 2 d.day.toNat

def isLeapYear (y : ℤ) : Bool :=
  (y % 4 = 0 ∧ y % 100 ≠ 0) ∨ y % 400 = 0

/-- Days in the (0-based) month m of year y, Gregorian calendar. -/
def daysInMonth (y m : ℤ) : ℤ :=
  if m = 1 then (if isLeapYear y then 29 else 28)
  else if m = 3 ∨ m = 5 ∨ m = 8 ∨ m = 10 then 30
  else 31

/-- The JS Date rollover performed by setDate(getDate() + 1). -/
def nextDay (d : JsDate) : JsDate :=
  if d.day < daysInMonth d.year d.month then ⟨d.year, d.month, d.day + 1⟩
  else if d.month < 11 then ⟨d.year, d.month + 1, 1⟩
  else ⟨d.year + 1, 0, 1⟩

/-- setDate(getDate() + n) for a nonnegative n, by repeated rollover. -/
def addDays (d : JsDate) : ℕ → JsDate
  | 0 => d
  | n + 1 => nextDay (addDays d n)

end JsDate

/-! ## Appointment Generator (generate-pat-data.js)

The per-visit random choices that precede the per-procedure loop — patient
selection (which uses the irrational exponent 1.5), visit date, location and
provider pairing — are modelled as inputs of a VisitSpec; everything from the
status draw on (status probabilities, procedure count, age-banded procedure
selection, recall gating, treatment plans, financial fields, CSV row contents)
is translated from the source. -/

namespace PatGen

structure Procedure where
  code : String
  description : String
  category : String
  avg_fee : ℤ
  duration : ℤ
deriving Repr, DecidableEq

/-- The procedure catalog of generate-pat-data.js. -/
def procedures : List Procedure := [
  ⟨"D0120", "Periodic Oral Evaluation", "Diagnostic", 60, 15⟩,
  ⟨"D0150", "Comprehensive Oral Evaluation", "Diagnostic", 110, 30⟩,
  ⟨"D0210", "Complete Series X-rays", "Diagnostic", 150, 30⟩,
  ⟨"D0220", "Periapical X-ray (First Film)", "Diagnostic", 35, 10⟩,
  ⟨"D0274", "Bitewing X-rays (Four Films)", "Diagnostic", 70, 15⟩,
  ⟨"D1110", "Prophylaxis (Cleaning) - Adult", "Preventive", 110, 45⟩,
  ⟨"D1120", "Prophylaxis (Cleaning) - Child", "Preventive", 85, 30⟩,
  ⟨"D1208", "Fluoride Treatment", "Preventive", 45, 15⟩,
  ⟨"D1351", "Sealant (Per Tooth)", "Preventive", 60, 20⟩,
  ⟨"D2140", "Amalgam Filling - One Surface", "Restorative", 155, 45⟩,
  ⟨"D2150", "Amalgam Filling - Two Surfaces", "Restorative", 195, 60⟩,
  ⟨"D2160", "Amalgam Filling - Three Surfaces", "Restorative", 235, 75⟩,
  ⟨"D2330", "Resin Filling - One Surface", "Restorative", 175, 45⟩,
  ⟨"D2331", "Resin Filling - Two Surfaces", "Restorative", 215, 60⟩,
  ⟨"D2332", "Resin Filling - Three Surfaces", "Restorative", 255, 75⟩,
  ⟨"D2740", "Crown - Porcelain/Ceramic", "Restorative", 1250, 90⟩,
  ⟨"D2750", "Crown - Porcelain Fused to Metal", "Restorative", 1150, 90⟩,
  ⟨"D3310", "Root Canal - Anterior", "Endodontic", 825, 90⟩,
  ⟨"D3320", "Root Canal - Bicuspid", "Endodontic", 950, 105⟩,
  ⟨"D3330", "Root Canal - Molar", "Endodontic", 1150, 120⟩,
  ⟨"D4341", "Periodontal Scaling & Root Planing (Per Quadrant)", "Periodontic", 275, 60⟩,
  ⟨"D4910", "Periodontal Maintenance", "Periodontic", 135, 45⟩,
  ⟨"D5110", "Complete Denture - Maxillary", "Prosthodontic", 1890, 100⟩,
  ⟨"D5120", "Complete Denture - Mandibular", "Prosthodontic", 1850, 90⟩,
  ⟨"D5213", "Partial Denture - Maxillary", "Prosthodontic", 1650, 90⟩,
  ⟨"D5214", "Partial Denture - Mandibular", "Prosthodontic", 1650, 90⟩,
  ⟨"D6010", "Surgical Implant Placement", "Implant", 2100, 120⟩,
  ⟨"D6056", "Implant Abutment", "Implant", 650, 60⟩,
  ⟨"D6058", "Implant Crown", "Implant", 1550, 90⟩,
  ⟨"D8080", "Comprehensive Orthodontic Treatment - Adolescent", "Orthodontic", 5500, 120⟩,
  ⟨"D8090", "Comprehensive Orthodontic Treatment - Adult", "Orthodontic", 6200, 120⟩,
  ⟨"D9110", "Palliative Treatment (Emergency)", "Adjunctive", 125, 30⟩,
  ⟨"D9215", "Local Anesthesia", "Adjunctive", 45, 10⟩,
  ⟨"D9310", "Consultation", "Adjunctive", 95, 45⟩]

structure InsuranceCarrier where
  name : String
  avg_reimbursement_rate : ℚ
deriving Repr, DecidableEq

def insuranceProviders : List InsuranceCarrier := [
  ⟨"Delta Dental", 0.85⟩,
  ⟨"Cigna Dental", 0.80⟩,
  ⟨"Aetna", 0.75⟩,
  ⟨"MetLife", 0.82⟩,
  ⟨"Guardian", 0.78⟩,
  ⟨"No Insurance", 1.00⟩]

def teeth : List String :=
  ["1", "2", "3", "4", "5", "6", "7", "8", "9", "10", "11", "12", "13", "14", "15", "16",
   "17", "18", "19", "20", "21", "22", "23", "24", "25", "26", "27", "28", "29", "30", "31", "32"]

def paymentMethods : List String :=
  ["Credit Card", "Debit Card", "Cash", "Check", "Insurance Only"]

structure Patient where
  patient_id : String
  name : String
  gender : String
  age : ℤ
  zip_code : String
  registration_date : JsDate
  insurance_provider : String
  is_active : Bool
deriving Repr, DecidableEq

structure Location where
  id : String
  name : String
  google_rating : ℚ
deriving Repr, DecidableEq

structure Provider where
  id : String
  name : String
  role : String
  primary_location : String
  specialty : String
  hourly_rate : ℤ
  full_time : Bool
deriving Repr, DecidableEq

/-- isDueForRecall, with the global patientLastCleaningDate entry for this
patient passed in explicitly (the stored YYYY-MM-DD string carries exactly the
year/month/day the model stores). -/
def isDueForRecall (lastCleaning : Option JsDate) (procedureCode : String)
    (currentDate : JsDate) : Bool :=
  if procedureCode ≠ "D1110" ∧ procedureCode ≠ "D1120" then true
  else
    match lastCleaning with
    | none => true
    | some lastDate => 5 ≤ JsDate.monthsSince lastDate currentDate

/-- The cumulative-probability scan over
  Completed 0.85 / No-Show 0.05 / Canceled 0.07 / Rescheduled 0.03;
if no break fires the status index stays 0 (Completed). -/
def appointmentStatusFor (r : ℚ) : String :=
  if r ≤ 0.85 then "Completed"
  else if r ≤ 0.90 then "No-Show"
  else if r ≤ 0.97 then "Canceled"
  else if r ≤ 1 then "Rescheduled"
  else "Completed"

/-- State entry of the activeTreatmentPlans global. -/
structure TreatmentPlan where
  id : String
  creationDate : String
  totalProcedures : ℤ
  completedProcedures : ℤ
  totalCost : ℤ
deriving Repr, DecidableEq

/-- The two per-patient mutable globals of generate-pat-data.js, as
association lists keyed by patient id. -/
structure GenState where
  lastCleaning : List (String × JsDate)
  plans : List (String × TreatmentPlan)
deriving Repr, DecidableEq

def initState : GenState := ⟨[], []⟩

def assocFind {α : Type} (m : List (String × α)) (k : String) : Option α :=
  (m.find? (fun e => e.1 = k)).map (fun e => e.2)

def assocSet {α : Type} (m : List (String × α)) (k : String) (v : α) :
    List (String × α) :=
  (k, v) :: m.filter (fun e => ¬ e.1 = k)

def assocErase {α : Type} (m : List (String × α)) (k : String) :
    List (String × α) :=
  m.filter (fun e => ¬ e.1 = k)

/-- Row data produced for the treatment-plan block of a Completed procedure. -/
structure PlanInfo where
  planId : String
  creationDate : String
  completionDate : String
  rate : ℤ
  estimatedTotal : ℤ
deriving Repr, DecidableEq

def planCategories : List String :=
  ["Restorative", "Endodontic", "Prosthodontic", "Implant"]

/-- The treatment-plan block of generateAppointmentData (Completed branch):
update an existing plan — incrementing its completed count, capping the rate
at 100 and deleting the plan once the rate reaches 100 — or, with probability
0.3 for the qualifying categories, open a new plan whose first procedure is
this one. planRoll, planIdPick and planTotalPick are the Math.random() draws. -/
def planStep (patientId : String) (formattedVisitDate : String)
    (category : String) (chargedAmount : ℤ)
    (plans : List (String × TreatmentPlan))
    (planRoll planIdPick planTotalPick : ℚ) :
    PlanInfo × List (String × TreatmentPlan) :=
  match assocFind plans patientId with
  | some existingPlan =>
    let completed := existingPlan.completedProcedures + 1
    let rate : ℤ :=
      min 100 (jsRound (((completed : ℚ) / (existingPlan.totalProcedures : ℚ)) * 100))
    if 100 ≤ rate then
      (⟨existingPlan.id, existingPlan.creationDate, formattedVisitDate, rate,
        existingPlan.totalCost⟩,
       assocErase plans patientId)
    else
      (⟨existingPlan.id, existingPlan.creationDate, "", rate, existingPlan.totalCost⟩,
       assocSet plans patientId { existingPlan with completedProcedures := completed })
  | none =>
    if planRoll < 0.3 ∧ planCategories.contains category then
      let planId := "TP" ++ padNum 4 (⌊planIdPick * 10000⌋).toNat
      let totalProcedures := randomBetween planTotalPick 1 5
      let totalCost := chargedAmount * totalProcedures
      let rate : ℤ := jsRound (((1 : ℚ) / (totalProcedures : ℚ)) * 100)
      (⟨planId, formattedVisitDate, "", rate, totalCost⟩,
       assocSet plans patientId
         ⟨planId, formattedVisitDate, totalProcedures, 1, totalCost⟩)
    else
      (⟨"", "", "", 0, chargedAmount⟩, plans)

/-- The Math.random() draws consumed while emitting one procedure row. -/
structure FinRand where
  feeJitter : ℚ
  covJitter : ℚ
  discountRoll : ℚ
  discountPick : ℚ
  paidRoll : ℚ
  methodPick : ℚ
  toothPick : ℚ
  planRoll : ℚ
  planIdPick : ℚ
  planTotalPick : ℚ
  claimRoll : ℚ
  claimSubRoll : ℚ
  claimDelayPick : ℚ
deriving Repr, DecidableEq

/-- One record of Pat_App_Data.csv. -/
structure Row where
  Visit_ID : String
  Procedure_ID : String
  Patient_ID : String
  Patient_Name : String
  Patient_Gender : String
  Patient_Age : ℤ
  Patient_Zip_Code : String
  Location_ID : String
  Location_Name : String
  Provider_ID : String
  Provider_Name : String
  Provider_Role : String
  Provider_Specialty : String
  Date_of_Service : String
  Appointment_Time : String
  Appointment_Status : String
  Procedure_Code : String
  Procedure_Description : String
  Procedure_Category : String
  Procedure_Duration : ℤ
  Tooth_Number : String
  Charged_Amount : ℤ
  Insurance_Provider : String
  Insurance_Covered_Amount : ℤ
  Patient_Responsibility : ℤ
  Discount_Applied : ℤ
  Out_of_Pocket : ℤ
  Amount_Paid : ℤ
  Payment_Method : String
  Payment_Status : String
  Is_New_Patient : Bool
  Insurance_Claim_Status : String
  Insurance_Claim_Submission_Date : String
  Insurance_Claim_Payment_Date : String
  Google_Rating : ℚ
  Treatment_Plan_ID : String
  Treatment_Plan_Creation_Date : String
  Treatment_Plan_Completion_Date : String
  Treatment_Plan_Completion_Rate : ℤ
  Estimated_Total_Cost : ℤ
  Year : ℤ
  Month : ℤ
deriving Repr, DecidableEq

/-- insuranceProviders.find(p => p.name === name), defaulting to 0.75. -/
def reimbursementRateFor (name : String) : ℚ :=
  match insuranceProviders.find? (fun p => p.name = name) with
  | some p => p.avg_reimbursement_rate
  | none => 0.75

/-- The Completed branch of the per-procedure loop: financial derivation,
treatment-plan block and insurance-claim fields, returning the emitted row and
the updated activeTreatmentPlans map. -/
def mkCompletedRow (patient : Patient) (location : Location) (provider : Provider)
    (visitDate : JsDate) (appointmentTime visitId procedureId : String)
    (procedure : Procedure) (rnd : FinRand)
    (plans : List (String × TreatmentPlan)) :
    Row × List (String × TreatmentPlan) :=
  let formattedVisitDate := JsDate.formatDate visitDate
  let chargedAmount := jsRound ((procedure.avg_fee : ℚ) * (0.9 + rnd.feeJitter * 0.2))
  let hasInsurance := patient.insurance_provider ≠ "No Insurance"
  let insuranceCovered : ℤ :=
    if hasInsurance then
      let coverageRate :=
        max 0.5 (min 0.95 (reimbursementRateFor patient.insurance_provider
          * (0.9 + rnd.covJitter * 0.2)))
      jsRound ((chargedAmount : ℚ) * coverageRate)
    else 0
  let patientResponsibility := chargedAmount - insuranceCovered
  let hasDiscount := rnd.discountRoll < 0.15
  let discountRate : ℚ :=
    if hasDiscount then ((randomBetween rnd.discountPick 1 3 : ℤ) : ℚ) / 10 else 0
  let discountAmount := jsRound ((patientResponsibility : ℚ) * discountRate)
  let outOfPocket := patientResponsibility - discountAmount
  let isPaid := rnd.paidRoll < 0.95
  let amountPaid := if isPaid then outOfPocket else 0
  let paymentMethod := if isPaid then pick paymentMethods "" rnd.methodPick else ""
  let needsTooth :=
    ["Restorative", "Endodontic", "Periodontic", "Implant"].contains procedure.category
  let toothNumber := if needsTooth then pick teeth "" rnd.toothPick else ""
  let planOut := planStep patient.patient_id formattedVisitDate procedure.category
    chargedAmount plans rnd.planRoll rnd.planIdPick rnd.planTotalPick
  let claimStatus :=
    if hasInsurance then
      (if rnd.claimRoll < 0.95 then "Paid"
       else if rnd.claimSubRoll < 0.5 then "Pending" else "Denied")
    else ""
  let claimSubmissionDate := if hasInsurance then formattedVisitDate else ""
  let claimPaymentDate :=
    if claimStatus = "Paid" then
      JsDate.formatDate (JsDate.addDays visitDate (randomBetween rnd.claimDelayPick 15 45).toNat)
    else ""
  (⟨visitId, procedureId, patient.patient_id, patient.name, patient.gender,
    patient.age, patient.zip_code, location.id, location.name, provider.id,
    provider.name, provider.role, provider.specialty, formattedVisitDate,
    appointmentTime, "Completed", procedure.code, procedure.description,
    procedure.category, procedure.duration, toothNumber, chargedAmount,
    patient.insurance_provider, insuranceCovered, patientResponsibility,
    discountAmount, outOfPocket, amountPaid, paymentMethod,
    (if isPaid then "Paid" else "Outstanding"),
    (JsDate.formatDate patient.registration_date = formattedVisitDate),
    claimStatus, claimSubmissionDate, claimPaymentDate, location.google_rating,
    planOut.1.planId, planOut.1.creationDate, planOut.1.completionDate,
    planOut.1.rate, planOut.1.estimatedTotal, visitDate.year, visitDate.month + 1⟩,
   planOut.2)

/-- The non-Completed branch: the same identifying fields with every financial
field at its zero/empty default. -/
def mkNonCompletedRow (patient : Patient) (location : Location) (provider : Provider)
    (visitDate : JsDate) (appointmentTime visitId procedureId status : String) : Row :=
  let formattedVisitDate := JsDate.formatDate visitDate
  ⟨visitId, procedureId, patient.patient_id, patient.name, patient.gender,
   patient.age, patient.zip_code, location.id, location.name, provider.id,
   provider.name, provider.role, provider.specialty, formattedVisitDate,
   appointmentTime, status, "", "", "", 0, "", 0,
   patient.insurance_provider, 0, 0, 0, 0, 0, "", "",
   (JsDate.formatDate patient.registration_date = formattedVisitDate),
   "", "", "", location.google_rating, "", "", "", 0, 0,
   visitDate.year, visitDate.month + 1⟩

/-- One iteration of the per-procedure loop (lines 335-592 of the source):
recall gating with continue, last-cleaning update, then the Completed or
non-Completed row. Returns the emitted row, if any, and the updated globals. -/
def procStep (patient : Patient) (location : Location) (provider : Provider)
    (visitDate : JsDate) (appointmentTime visitId procedureId status : String)
    (procedure : Procedure) (rnd : FinRand) (st : GenState) :
    Option Row × GenState :=
  if (procedure.code = "D1110" ∨ procedure.code = "D1120")
      ∧ ¬ isDueForRecall (assocFind st.lastCleaning patient.patient_id)
            procedure.code visitDate then
    (none, st)
  else
    let lastCleaning2 :=
      if procedure.code = "D1110" ∨ procedure.code = "D1120" then
        assocSet st.lastCleaning patient.patient_id visitDate
      else st.lastCleaning
    if status = "Completed" then
      let out := mkCompletedRow patient location provider visitDate
        appointmentTime visitId procedureId procedure rnd st.plans
      (some out.1, ⟨lastCleaning2, out.2⟩)
    else
      (some (mkNonCompletedRow patient location provider visitDate
        appointmentTime visitId procedureId status),
       ⟨lastCleaning2, st.plans⟩)

def youthProcedureCodes : List String :=
  ["D0120", "D0150", "D1120", "D1208", "D1351", "D8080"]

def seniorProcedureCodes : List String :=
  ["D2740", "D2750", "D3310", "D3320", "D3330", "D5110", "D5120", "D6010", "D6058"]

/-- procedures.findIndex(p => p.code === selectedCode). -/
def findIndexByCode (code : String) : ℤ :=
  match procedures.findIdx? (fun p => p.code = code) with
  | some i => (i : ℤ)
  | none => -1

/-- The age-banded procedure index selection (branchRoll is the banding draw,
innerPick the index draw inside the chosen branch). -/
def selectProcedureIndex (age : ℤ) (branchRoll innerPick : ℚ) : ℤ :=
  if age < 18 then
    if branchRoll < 0.7 then findIndexByCode (pick youthProcedureCodes "" innerPick)
    else ⌊innerPick * (procedures.length : ℚ)⌋
  else if 55 < age then
    if branchRoll < 0.6 then findIndexByCode (pick seniorProcedureCodes "" innerPick)
    else ⌊innerPick * (procedures.length : ℚ)⌋
  else
    if branchRoll < 0.6 then ⌊innerPick * 10⌋
    else ⌊innerPick * (procedures.length : ℚ)⌋

def defaultProcedure : Procedure := ⟨"D0120", "Periodic Oral Evaluation", "Diagnostic", 60, 15⟩

/-- Procedure selection with the index -1 fallback redraw. -/
def selectProcedure (age : ℤ) (branchRoll innerPick fallbackPick : ℚ) : Procedure :=
  let idx := selectProcedureIndex age branchRoll innerPick
  let idx2 := if idx = -1 then ⌊fallbackPick * (procedures.length : ℚ)⌋ else idx
  procedures.getD idx2.toNat defaultProcedure

/-- Draws consumed by one iteration of the procedure loop. -/
structure ProcPick where
  branchRoll : ℚ
  innerPick : ℚ
  fallbackPick : ℚ
  fin : FinRand
deriving Repr, DecidableEq

def defaultProcPick : ProcPick := ⟨0, 0, 0, ⟨0,0,0,0,0,0,0,0,0,0,0,0,0⟩⟩

/-- One visit of the outer loop. The patient, location, provider, date and
time draws (which precede the modelled code) are carried as inputs; statusPick
and numProcsPick are the status and procedure-count draws, procPicks the
per-iteration draws of the procedure loop. -/
structure VisitSpec where
  patient : Patient
  location : Location
  provider : Provider
  visitDate : JsDate
  appointmentTime : String
  statusPick : ℚ
  numProcsPick : ℚ
  procPicks : List ProcPick
deriving Repr, DecidableEq

/-- The procedure loop of one visit: iterate procStep numProcs times,
numbering Procedure_IDs i*10+p+1 as the source does. -/
def procLoop (v : VisitSpec) (i : ℕ) (status visitId : String) :
    ℕ → ℕ → GenState → List Row × GenState
  | _, 0, st => ([], st)
  | p, n + 1, st =>
    let pk := v.procPicks.getD p defaultProcPick
    let procedure := selectProcedure v.patient.age pk.branchRoll pk.innerPick pk.fallbackPick
    let procedureId := "PROC" ++ padNum 6 (i * 10 + p + 1)
    let step := procStep v.patient v.location v.provider v.visitDate
      v.appointmentTime visitId procedureId status procedure pk.fin st
    let rest := procLoop v i status visitId (p + 1) n step.2
    (match step.1 with
     | some r => r :: rest.1
     | none => rest.1,
     rest.2)

/-- Emission of one visit (index i of the outer loop): Visit_ID V then i+1
padded to six digits, 1-3 procedures via randomBetween. -/
def visitStep (v : VisitSpec) (i : ℕ) (st : GenState) : List Row × GenState :=
  let status := appointmentStatusFor v.statusPick
  let visitId := "V" ++ padNum 6 (i + 1)
  let numProcs := (randomBetween v.numProcsPick 1 3).toNat
  procLoop v i status visitId 0 numProcs st

/-- The outer loop over visits, keeping the rows of each visit grouped. -/
def genVisits : List VisitSpec → ℕ → GenState → List (List Row)
  | [], _, _ => []
  | v :: rest, i, st =>
    let out := visitStep v i st
    out.1 :: genVisits rest (i + 1) out.2

/-- generateAppointmentData: the flat record list (the final sort by date and
time only permutes rows and is omitted; every claim below is per-row). -/
def generateAppointmentData (visits : List VisitSpec) : List Row :=
  (genVisits visits 0 initState).flatten

end PatGen

/-! ## Fixed file names of the pipeline

Each generator reads and writes hard-coded file names in the working
directory; these constants are quoted from the three scripts. -/

/-- writeFileSync target of the Appointment Generator. -/
def appointmentOutputFilename : String := "Pat_App_Data.csv"

/-- readFile argument of the Operations Generator (readAppointmentData). -/
def operationsInputFilename : String := "Pat_App_Data.csv"

/-- writeFileSync target of the Operations Generator for the main table. -/
def operationsOutputFilename : String := "Dental_Operations_Data.csv"

/-- Secondary writeFileSync targets of the Operations Generator. -/
def staffHoursOutputFilename : String := "Dental_Staff_Hours_Data.csv"

def equipmentUsageOutputFilename : String := "Dental_Equipment_Usage_Data.csv"

/-- existsSync probe of the Financial Generator for the appointment table. -/
def financialAppointmentInputFilename : String := "Pat_App_Data.csv"

/-- existsSync probe of the Financial Generator for the operations table. -/
def financialOperationsInputFilename : String := "Operations_Data.csv"

/-- writeFileSync target of the Financial Generator. -/
def financialOutputFilename : String := "Financial_Data.csv"

/-- The files present in the working directory after the Appointment and
Operations Generators both ran to completion. -/
def postPipelineFiles : List String :=
  [appointmentOutputFilename, operationsOutputFilename,
   staffHoursOutputFilename, equipmentUsageOutputFilename]

/-! ## Operations Generator

The script reads Pat_App_Data.csv, accumulates per-(date, location) buckets
and derives daily metrics from the bucket when the relevant sum is non-zero,
synthesizing from the location target otherwise. Numeric CSV cells of the
generated upstream file are nonnegative integers, so the parseInt results are
modelled as ℕ. -/

namespace OpsGen

/-- One parsed row of Pat_App_Data.csv as consumed by readAppointmentData. -/
structure AppRow where
  Date_of_Service : String
  Location_ID : String
  Appointment_Status : String
  Procedure_Duration : ℕ
  Charged_Amount : ℕ
  Insurance_Covered_Amount : ℕ
  Patient_Responsibility : ℕ
  Amount_Paid : ℕ
  Procedure_Code : String
  Procedure_Description : String
  Procedure_Category : String
  Is_New_Patient : String
deriving Repr, DecidableEq

structure ProcDetail where
  code : String
  description : String
  category : String
  duration : ℕ
deriving Repr, DecidableEq

/-- The per-(date, location) accumulator of readAppointmentData. -/
structure DayMetrics where
  total : ℕ
  completed : ℕ
  canceled : ℕ
  noShow : ℕ
  rescheduled : ℕ
  totalDuration : ℕ
  newPatients : ℕ
  procedures : List ProcDetail
  chargedAmount : ℕ
  insuranceCovered : ℕ
  patientResponsibility : ℕ
  amountPaid : ℕ
deriving Repr, DecidableEq

def emptyDayMetrics : DayMetrics := ⟨0, 0, 0, 0, 0, 0, 0, [], 0, 0, 0, 0⟩

/-- The per-row bucket update of readAppointmentData (status counters,
Completed sums, procedure details, new-patient counter). -/
def updateDayMetrics (m : DayMetrics) (r : AppRow) : DayMetrics :=
  let m1 := { m with total := m.total + 1 }
  let m2 :=
    if r.Appointment_Status = "Completed" then
      let base := { m1 with
        completed := m1.completed + 1,
        totalDuration := m1.totalDuration + r.Procedure_Duration,
        chargedAmount := m1.chargedAmount + r.Charged_Amount,
        insuranceCovered := m1.insuranceCovered + r.Insurance_Covered_Amount,
        patientResponsibility := m1.patientResponsibility + r.Patient_Responsibility,
        amountPaid := m1.amountPaid + r.Amount_Paid }
      if r.Procedure_Code ≠ "" then
        { base with procedures := base.procedures ++
            [⟨r.Procedure_Code, r.Procedure_Description, r.Procedure_Category,
              r.Procedure_Duration⟩] }
      else base
    else if r.Appointment_Status = "Canceled" then
      { m1 with canceled := m1.canceled + 1 }
    else if r.Appointment_Status = "No-Show" then
      { m1 with noShow := m1.noShow + 1 }
    else if r.Appointment_Status = "Rescheduled" then
      { m1 with rescheduled := m1.rescheduled + 1 }
    else m1
  if r.Is_New_Patient = "true" then
    { m2 with newPatients := m2.newPatients + 1 }
  else m2

def rowMatches (d l : String) (r : AppRow) : Bool :=
  r.Date_of_Service = d ∧ r.Location_ID = l

/-- Per-key denotation of the accumulation loop: the (date, location) bucket
exists iff the file carries a matching row, and then equals the fold of the
row updates over the matching rows in file order (rows for other keys never
touch this bucket). -/
def appointmentBucket (rows : List AppRow) (d l : String) : Option DayMetrics :=
  if rows.any (rowMatches d l) then
    some ((rows.filter (rowMatches d l)).foldl updateDayMetrics emptyDayMetrics)
  else none

/-- The appointmentMetrics local of generateDailyOperations: the bucket when
present, the all-zero default object otherwise. -/
def appointmentMetricsFor (rows : List AppRow) (d l : String) : DayMetrics :=
  (appointmentBucket rows d l).getD emptyDayMetrics

/-- Location constants of the Operations Generator. -/
structure OpsLocation where
  id : String
  name : String
  chairs : ℤ
  operatingHours : ℤ
  avgPatientsPerChairPerDay : ℤ
  target_chair_utilization : ℚ
  target_collection_rate : ℚ
  target_new_patients : ℤ
  target_cancellation_rate : ℚ
deriving Repr, DecidableEq

def opsLocations : List OpsLocation := [
  ⟨"LOC001", "Downtown Dental", 5, 9, 8, 0.85, 0.92, 30, 0.05⟩,
  ⟨"LOC002", "Westside Smile Center", 4, 10, 7, 0.82, 0.90, 25, 0.06⟩,
  ⟨"LOC003", "East Valley Dental Care", 3, 8, 6, 0.80, 0.88, 20, 0.07⟩,
  ⟨"LOC004", "North Portland Family Dental", 4, 9, 7, 0.83, 0.91, 25, 0.06⟩]

/-- targetUtilization with its 0.5 percent per year improvement. -/
def targetUtilizationFor (loc : OpsLocation) (year : ℤ) : ℚ :=
  loc.target_chair_utilization + ((year - 2020 : ℤ) : ℚ) * 0.005

/-- Available chair minutes, halved on Saturdays. -/
def availableChairMinutes (loc : OpsLocation) (isSaturday : Bool) : ℚ :=
  let base : ℚ := (loc.chairs : ℚ) * (loc.operatingHours : ℚ) * 60
  if isSaturday then base / 2 else base

/-- The synthetic fallback arm for daily chair utilization. -/
def chairUtilizationSynthetic (loc : OpsLocation) (year : ℤ) (r : ℚ) : ℚ :=
  randomFloatBetween r (max 0.65 (targetUtilizationFor loc year - 0.1))
    (min 0.95 (targetUtilizationFor loc year + 0.05))

/-- Daily chair utilization: derived from the summed procedure duration, capped
at 0.95, when the bucket duration is non-zero; synthetic otherwise. -/
def chairUtilizationFor (m : DayMetrics) (loc : OpsLocation) (year : ℤ)
    (isSaturday : Bool) (r : ℚ) : ℚ :=
  if 0 < m.totalDuration then
    min 0.95 ((m.totalDuration : ℚ) / availableChairMinutes loc isSaturday)
  else chairUtilizationSynthetic loc year r

/-- cancellationRate = totalScheduled > 0 ? cancellations / totalScheduled : 0. -/
def cancellationRateFor (m : DayMetrics) : ℚ :=
  if 0 < m.total then (m.canceled : ℚ) / (m.total : ℚ) else 0

/-- noShowRate = totalScheduled > 0 ? noShows / totalScheduled : 0. -/
def noShowRateFor (m : DayMetrics) : ℚ :=
  if 0 < m.total then (m.noShow : ℚ) / (m.total : ℚ) else 0

/-- The synthetic fallback arm for the daily collection rate. -/
def collectionRateSynthetic (loc : OpsLocation) (r : ℚ) : ℚ :=
  randomFloatBetween r (max 0.6 (loc.target_collection_rate - 0.1))
    (min 0.98 (loc.target_collection_rate + 0.05))

/-- Actual_Collection_Rate: amountPaid / chargedAmount when the bucket charged
sum is non-zero, synthetic otherwise. -/
def actualCollectionRateFor (m : DayMetrics) (loc : OpsLocation) (r : ℚ) : ℚ :=
  if 0 < m.chargedAmount then (m.amountPaid : ℚ) / (m.chargedAmount : ℚ)
  else collectionRateSynthetic loc r

/-- dailyClaimsSubmitted = Math.round(actualAppointments * 0.8). -/
def dailyClaimsSubmittedFor (m : DayMetrics) : ℤ :=
  jsRound ((m.completed : ℚ) * 0.8)

/-- dailyClaimsProcessed = Math.round(dailyClaimsSubmitted * randomFloatBetween(0.9, 1.1)). -/
def dailyClaimsProcessedFor (m : DayMetrics) (r : ℚ) : ℤ :=
  jsRound ((dailyClaimsSubmittedFor m : ℚ) * randomFloatBetween r 0.9 1.1)

/-- dailyClaimsDenied = Math.round(dailyClaimsProcessed * randomFloatBetween(0.02, 0.08)). -/
def dailyClaimsDeniedFor (m : DayMetrics) (r r2 : ℚ) : ℤ :=
  jsRound ((dailyClaimsProcessedFor m r : ℚ) * randomFloatBetween r2 0.02 0.08)

/-- Insurance_Denial_Rate = dailyClaimsDenied / dailyClaimsProcessed, written
with no check on the denominator; none models the NaN emitted when the
denominator is zero. -/
def insuranceDenialRateFor (m : DayMetrics) (r r2 : ℚ) : Option ℚ :=
  jsDiv (dailyClaimsDeniedFor m r r2 : ℚ) (dailyClaimsProcessedFor m r : ℚ)

/-- readAppointmentData: fs.readFile rejects the promise when the file is
absent; on success the parsed rows feed the accumulation. -/
def readAppointmentData (present : List String) (rows : List AppRow) :
    Except String (List AppRow) :=
  if operationsInputFilename ∈ present then Except.ok rows
  else Except.error "ENOENT"

/-- Control flow of the Operations Generator main: generateOperationsDataset
awaits readAppointmentData, so a rejection propagates to the try/catch in main,
which logs the error and returns before any writeFileSync runs. some rows
means the run proceeds over the parsed data and writes the three CSV outputs;
none means no output file is written. -/
def opsRunResult (present : List String) (rows : List AppRow) :
    Option (List AppRow) :=
  match readAppointmentData present rows with
  | Except.ok d => some d
  | Except.error _ => none

end OpsGen

/-! ## Financial Generator

readExistingData probes for both upstream files with existsSync (missing files
are logged and leave the corresponding index empty), aggregates them to
(location, year, month), and generateMonthlyFinancialData chooses, per metric,
between the operations index, the appointment index and synthetic estimation. -/

namespace FinGen

/-- One parsed row of Pat_App_Data.csv as consumed by readExistingData. -/
structure FinAppRow where
  Location_ID : String
  Year : ℤ
  Month : ℤ
  Charged_Amount : ℕ
  Insurance_Covered_Amount : ℕ
  Amount_Paid : ℕ
  Appointment_Status : String
  Procedure_Category : String
  Insurance_Provider : String
deriving Repr, DecidableEq

/-- One parsed row of the operations table as consumed by readExistingData. -/
structure OpsRow where
  Location_ID : String
  Year : ℤ
  Month : ℤ
  Date : String
  Chair_Utilization : ℚ
  Actual_Appointments : ℕ
  New_Patient_Count : ℕ
  Total_Labor_Cost : ℕ
  Total_Labor_Hours : ℚ
  Actual_Collection_Rate : ℚ
deriving Repr, DecidableEq

/-- The appointmentsByLocationMonth accumulator. -/
structure ApptMonth where
  totalAppointments : ℕ
  completedAppointments : ℕ
  canceledAppointments : ℕ
  noShowAppointments : ℕ
  totalChargedAmount : ℕ
  totalInsuranceCovered : ℕ
  totalAmountPaid : ℕ
  serviceCategoryCounts : List (String × ℕ)
  payorCounts : List (String × ℕ)
deriving Repr, DecidableEq

def emptyApptMonth : ApptMonth := ⟨0, 0, 0, 0, 0, 0, 0, [], []⟩

/-- counts[k] = (counts[k] || 0) + 1 on an association list. -/
def bumpCount (m : List (String × ℕ)) (k : String) : List (String × ℕ) :=
  match m.find? (fun e => e.1 = k) with
  | some e => (k, e.2 + 1) :: m.filter (fun q => ¬ q.1 = k)
  | none => (k, 1) :: m

/-- The per-row update of appointmentsByLocationMonth. -/
def updateApptMonth (m : ApptMonth) (r : FinAppRow) : ApptMonth :=
  let m1 := { m with totalAppointments := m.totalAppointments + 1 }
  if r.Appointment_Status = "Completed" then
    let base := { m1 with
      completedAppointments := m1.completedAppointments + 1,
      totalChargedAmount := m1.totalChargedAmount + r.Charged_Amount,
      totalInsuranceCovered := m1.totalInsuranceCovered + r.Insurance_Covered_Amount,
      totalAmountPaid := m1.totalAmountPaid + r.Amount_Paid }
    let withCat :=
      if r.Procedure_Category ≠ "" then
        { base with serviceCategoryCounts := bumpCount base.serviceCategoryCounts r.Procedure_Category }
      else base
    if r.Insurance_Provider ≠ "" then
      { withCat with payorCounts := bumpCount withCat.payorCounts r.Insurance_Provider }
    else withCat
  else if r.Appointment_Status = "Canceled" then
    { m1 with canceledAppointments := m1.canceledAppointments + 1 }
  else if r.Appointment_Status = "No-Show" then
    { m1 with noShowAppointments := m1.noShowAppointments + 1 }
  else m1

def finAppRowMatches (loc : String) (y mo : ℤ) (r : FinAppRow) : Bool :=
  r.Location_ID = loc ∧ r.Year = y ∧ r.Month = mo

/-- Per-key denotation of the appointment accumulation: the (location, year,
month) bucket exists iff a matching row exists. -/
def apptMonthBucket (rows : List FinAppRow) (loc : String) (y mo : ℤ) :
    Option ApptMonth :=
  if rows.any (finAppRowMatches loc y mo) then
    some ((rows.filter (finAppRowMatches loc y mo)).foldl updateApptMonth emptyApptMonth)
  else none

/-- The operationsByLocationMonth accumulator, after its averaging pass
(sums of Chair_Utilization and Actual_Collection_Rate divided by the day
count, which is positive whenever the bucket exists). -/
structure OpsMonth where
  daysInMonth : ℕ
  totalAppointments : ℕ
  totalNewPatients : ℕ
  totalLaborCost : ℕ
  totalLaborHours : ℚ
  avgChairUtilization : ℚ
  avgCollectionRate : ℚ
deriving Repr, DecidableEq

def emptyOpsMonth : OpsMonth := ⟨0, 0, 0, 0, 0, 0, 0⟩

/-- The per-row update of operationsByLocationMonth (before averaging:
avgChairUtilization and avgCollectionRate hold running sums). -/
def updateOpsMonth (m : OpsMonth) (r : OpsRow) : OpsMonth :=
  { m with
    daysInMonth := m.daysInMonth + 1,
    totalAppointments := m.totalAppointments + r.Actual_Appointments,
    totalNewPatients := m.totalNewPatients + r.New_Patient_Count,
    totalLaborCost := m.totalLaborCost + r.Total_Labor_Cost,
    totalLaborHours := m.totalLaborHours + r.Total_Labor_Hours,
    avgChairUtilization := m.avgChairUtilization + r.Chair_Utilization,
    avgCollectionRate := m.avgCollectionRate + r.Actual_Collection_Rate }

def opsRowMatches (loc : String) (y mo : ℤ) (r : OpsRow) : Bool :=
  r.Location_ID = loc ∧ r.Year = y ∧ r.Month = mo

/-- The averaging pass over a finished bucket. -/
def averageOpsMonth (m : OpsMonth) : OpsMonth :=
  if 0 < m.daysInMonth then
    { m with
      avgChairUtilization := m.avgChairUtilization / (m.daysInMonth : ℚ),
      avgCollectionRate := m.avgCollectionRate / (m.daysInMonth : ℚ) }
  else m

/-- Per-key denotation of the operations accumulation plus averaging. -/
def opsMonthBucket (rows : List OpsRow) (loc : String) (y mo : ℤ) :
    Option OpsMonth :=
  if rows.any (opsRowMatches loc y mo) then
    some (averageOpsMonth
      ((rows.filter (opsRowMatches loc y mo)).foldl updateOpsMonth emptyOpsMonth))
  else none

/-- readExistingData, appointment side: when existsSync fails the container
stays empty and every later lookup is undefined (none). -/
def finAppointmentBucket (present : List String) (rows : List FinAppRow)
    (loc : String) (y mo : ℤ) : Option ApptMonth :=
  if financialAppointmentInputFilename ∈ present then apptMonthBucket rows loc y mo
  else none

/-- readExistingData, operations side. -/
def finOperationsBucket (present : List String) (rows : List OpsRow)
    (loc : String) (y mo : ℤ) : Option OpsMonth :=
  if financialOperationsInputFilename ∈ present then opsMonthBucket rows loc y mo
  else none

/-- Location constants of the Financial Generator (the fields the modelled
metrics read). -/
structure FinLocation where
  id : String
  name : String
  square_footage : ℤ
  monthly_rent : ℤ
  chairs : ℤ
  target_chair_utilization : ℚ
  target_collection_rate : ℚ
deriving Repr, DecidableEq

def finLocations : List FinLocation := [
  ⟨"LOC001", "Downtown Dental", 3200, 12800, 5, 0.85, 0.92⟩,
  ⟨"LOC002", "Westside Smile Center", 2800, 9800, 4, 0.82, 0.90⟩,
  ⟨"LOC003", "East Valley Dental Care", 2400, 7200, 3, 0.80, 0.88⟩,
  ⟨"LOC004", "North Portland Family Dental", 2600, 8500, 4, 0.83, 0.91⟩]

/-- Base synthetic revenue by location tier. -/
def baseRevenueFor (loc : FinLocation) (r : ℚ) : ℤ :=
  if loc.id = "LOC001" then randomBetween r 180000 220000
  else if loc.id = "LOC002" then randomBetween r 140000 170000
  else if loc.id = "LOC004" then randomBetween r 120000 150000
  else randomBetween r 100000 130000

/-- The synthetic revenue arm: base revenue scaled by the seasonal and growth
factors (which the source computes from the date before this branch). -/
def totalRevenueSynthetic (loc : FinLocation) (r seasonal growth : ℚ) : ℤ :=
  jsRound ((baseRevenueFor loc r : ℚ) * seasonal * growth)

/-- Total_Revenue: the appointment charged sum when present and non-zero,
synthetic otherwise. -/
def totalRevenueFor (appt : Option ApptMonth) (loc : FinLocation)
    (r seasonal growth : ℚ) : ℤ :=
  match appt with
  | some a =>
    if 0 < a.totalChargedAmount then (a.totalChargedAmount : ℤ)
    else totalRevenueSynthetic loc r seasonal growth
  | none => totalRevenueSynthetic loc r seasonal growth

/-- The synthetic arm for clinical labor: 18-22 percent of revenue. -/
def laborClinicalSynthetic (totalRevenue : ℤ) (r : ℚ) : ℤ :=
  jsRound ((totalRevenue : ℚ) * randomFloatBetween r 0.18 0.22)

/-- Labor - Clinical: 75 percent of the operations labor cost when the
operations bucket exists with a non-zero labor cost, synthetic otherwise. -/
def laborClinicalFor (ops : Option OpsMonth) (totalRevenue : ℤ) (r : ℚ) : ℤ :=
  match ops with
  | some o =>
    if 0 < o.totalLaborCost then jsRound ((o.totalLaborCost : ℚ) * 0.75)
    else laborClinicalSynthetic totalRevenue r
  | none => laborClinicalSynthetic totalRevenue r

/-- The synthetic arm for administrative labor: 6-10 percent of revenue. -/
def laborAdministrativeSynthetic (totalRevenue : ℤ) (r : ℚ) : ℤ :=
  jsRound ((totalRevenue : ℚ) * randomFloatBetween r 0.06 0.10)

/-- Labor - Administrative: 25 percent of the operations labor cost when
available, synthetic otherwise. -/
def laborAdministrativeFor (ops : Option OpsMonth) (totalRevenue : ℤ) (r : ℚ) : ℤ :=
  match ops with
  | some o =>
    if 0 < o.totalLaborCost then jsRound ((o.totalLaborCost : ℚ) * 0.25)
    else laborAdministrativeSynthetic totalRevenue r
  | none => laborAdministrativeSynthetic totalRevenue r

/-- The synthetic arm for the monthly collection rate (target with variance). -/
def finCollectionRateSynthetic (loc : FinLocation) (r : ℚ) : ℚ :=
  randomFloatBetween r (max 0.6 (loc.target_collection_rate - 0.1))
    (min 0.98 (loc.target_collection_rate + 0.05))

/-- The appointment-or-synthetic tail of the collection-rate chain
(the else-if arm and the final else of the source chain). -/
def finCollectionRateFallback (appt : Option ApptMonth) (loc : FinLocation)
    (r : ℚ) : ℚ :=
  match appt with
  | some a =>
    if 0 < a.totalChargedAmount then
      (a.totalAmountPaid : ℚ) / (a.totalChargedAmount : ℚ)
    else finCollectionRateSynthetic loc r
  | none => finCollectionRateSynthetic loc r

/-- Collection_Rate: the averaged operations rate when available, else the
appointment-derived paid/charged ratio, else synthetic. -/
def finCollectionRateFor (ops : Option OpsMonth) (appt : Option ApptMonth)
    (loc : FinLocation) (r : ℚ) : ℚ :=
  match ops with
  | some o =>
    if 0 < o.avgCollectionRate then o.avgCollectionRate
    else finCollectionRateFallback appt loc r
  | none => finCollectionRateFallback appt loc r

/-- Chair_Utilization: the averaged operations utilization when available,
else randomFloatBetween(0.7, 0.9). -/
def finChairUtilizationFor (ops : Option OpsMonth) (r : ℚ) : ℚ :=
  match ops with
  | some o =>
    if 0 < o.avgChairUtilization then o.avgChairUtilization
    else randomFloatBetween r 0.7 0.9
  | none => randomFloatBetween r 0.7 0.9

/-- The procedure-count block: (numberOfProcedures, completedProcedures,
cancelledProcedures) from the appointment bucket, else the operations bucket,
else a revenue-based estimate. -/
def proceduresFor (appt : Option ApptMonth) (ops : Option OpsMonth)
    (totalRevenue : ℤ) (r1 r2 r3 : ℚ) : ℤ × ℤ × ℤ :=
  match appt with
  | some a =>
    let completed : ℤ := a.completedAppointments
    let cancelled : ℤ := (a.canceledAppointments : ℤ) + (a.noShowAppointments : ℤ)
    (completed + cancelled, completed, cancelled)
  | none =>
    match ops with
    | some o =>
      let completed : ℤ := o.totalAppointments
      let cancelled := jsRound ((completed : ℚ) * randomFloatBetween r1 0.02 0.08)
      (completed + cancelled, completed, cancelled)
    | none =>
      let n := jsRound ((totalRevenue : ℚ) / ((randomBetween r2 200 300 : ℤ) : ℚ))
      let completed := jsRound ((n : ℚ) * randomFloatBetween r3 0.92 0.98)
      (n, completed, n - completed)

/-- The patient block: (patientVisits, newPatients, returningPatients) from
the operations bucket when it exists, else estimated from the procedure count. -/
def patientVisitsFor (ops : Option OpsMonth) (numberOfProcedures : ℤ) (r : ℚ) :
    ℤ × ℤ × ℤ :=
  match ops with
  | some o =>
    let visits : ℤ := o.totalAppointments
    let newP : ℤ := o.totalNewPatients
    (visits, newP, visits - newP)
  | none =>
    let visits := jsRound ((numberOfProcedures : ℚ) * 0.7)
    let newP := jsRound ((visits : ℚ) * randomFloatBetween r 0.15 0.25)
    (visits, newP, visits - newP)

/-- treatmentPlansPresented = Math.round(patientVisits * randomFloatBetween(0.3, 0.5)). -/
def treatmentPlansPresentedFor (patientVisits : ℤ) (r : ℚ) : ℤ :=
  jsRound ((patientVisits : ℚ) * randomFloatBetween r 0.3 0.5)

/-- treatmentPlansAccepted = Math.round(presented * randomFloatBetween(0.6, 0.8)). -/
def treatmentPlansAcceptedFor (presented : ℤ) (r : ℚ) : ℤ :=
  jsRound ((presented : ℚ) * randomFloatBetween r 0.6 0.8)

/-- treatmentPlansCompleted = Math.round(accepted * randomFloatBetween(0.7, 0.9)). -/
def treatmentPlansCompletedFor (accepted : ℤ) (r : ℚ) : ℤ :=
  jsRound ((accepted : ℚ) * randomFloatBetween r 0.7 0.9)

/-- Case_Acceptance_Rate = accepted / presented, with no denominator check. -/
def caseAcceptanceRateFor (accepted presented : ℤ) : Option ℚ :=
  jsDiv (accepted : ℚ) (presented : ℚ)

/-- Treatment_Completion_Rate = completed / accepted, with no denominator check. -/
def treatmentCompletionRateFor (completed accepted : ℤ) : Option ℚ :=
  jsDiv (completed : ℚ) (accepted : ℚ)

/-- Revenue_Per_Patient = totalRevenue / patientVisits, with no denominator check. -/
def revenuePerPatientFor (totalRevenue patientVisits : ℤ) : Option ℚ :=
  jsDiv (totalRevenue : ℚ) (patientVisits : ℚ)

end FinGen

/-! ## Lemmas on the Appointment Generator -/

namespace PatGen

theorem assocFind_assocSet_self {α : Type} (m : List (String × α)) (k : String) (v : α) :
    assocFind (assocSet m k v) k = some v := by
  simp [assocFind, assocSet, List.find?]

theorem assocFind_assocErase_self {α : Type} (m : List (String × α)) (k : String) :
    assocFind (assocErase m k) k = none := by
  simp only [assocFind, assocErase, Option.map_eq_none]
  induction m with
  | nil => simp
  | cons e t ih =>
    by_cases h : e.1 = k
    · simp only [List.filter, h]
      simpa using ih
    · simp only [List.filter, h]
      simpa [List.find?, h] using ih

/-- Every row of the Completed branch satisfies the out-of-pocket identity and
the paid-in-full-or-unpaid alternative. -/
theorem mkCompletedRow_financials (pat : Patient) (loc : Location) (prov : Provider)
    (d : JsDate) (t vid pid : String) (proc : Procedure) (rnd : FinRand)
    (plans : List (String × TreatmentPlan)) :
    (mkCompletedRow pat loc prov d t vid pid proc rnd plans).1.Appointment_Status = "Completed"
    ∧ (mkCompletedRow pat loc prov d t vid pid proc rnd plans).1.Out_of_Pocket
        = (mkCompletedRow pat loc prov d t vid pid proc rnd plans).1.Patient_Responsibility
          - (mkCompletedRow pat loc prov d t vid pid proc rnd plans).1.Discount_Applied
    ∧ ((mkCompletedRow pat loc prov d t vid pid proc rnd plans).1.Amount_Paid = 0
        ∨ (mkCompletedRow pat loc prov d t vid pid proc rnd plans).1.Amount_Paid
          = (mkCompletedRow pat loc prov d t vid pid proc rnd plans).1.Out_of_Pocket) := by
  refine ⟨rfl, rfl, ?_⟩
  by_cases h : rnd.paidRoll < 0.95
  · right
    simp only [mkCompletedRow, h, if_true]
  · left
    simp only [mkCompletedRow, h, if_false]

/-- Every field of the non-Completed branch that the data model calls
financial is at its zero/empty default, while the identifying fields (among
them the insurance carrier) are populated. -/
theorem mkNonCompletedRow_fields (pat : Patient) (loc : Location) (prov : Provider)
    (d : JsDate) (t vid pid status : String) :
    (mkNonCompletedRow pat loc prov d t vid pid status).Appointment_Status = status
    ∧ (mkNonCompletedRow pat loc prov d t vid pid status).Charged_Amount = 0
    ∧ (mkNonCompletedRow pat loc prov d t vid pid status).Insurance_Covered_Amount = 0
    ∧ (mkNonCompletedRow pat loc prov d t vid pid status).Patient_Responsibility = 0
    ∧ (mkNonCompletedRow pat loc prov d t vid pid status).Discount_Applied = 0
    ∧ (mkNonCompletedRow pat loc prov d t vid pid status).Out_of_Pocket = 0
    ∧ (mkNonCompletedRow pat loc prov d t vid pid status).Amount_Paid = 0
    ∧ (mkNonCompletedRow pat loc prov d t vid pid status).Procedure_Duration = 0
    ∧ (mkNonCompletedRow pat loc prov d t vid pid status).Treatment_Plan_Completion_Rate = 0
    ∧ (mkNonCompletedRow pat loc prov d t vid pid status).Estimated_Total_Cost = 0
    ∧ (mkNonCompletedRow pat loc prov d t vid pid status).Payment_Method = ""
    ∧ (mkNonCompletedRow pat loc prov d t vid pid status).Payment_Status = ""
    ∧ (mkNonCompletedRow pat loc prov d t vid pid status).Insurance_Claim_Status = ""
    ∧ (mkNonCompletedRow pat loc prov d t vid pid status).Insurance_Claim_Submission_Date = ""
    ∧ (mkNonCompletedRow pat loc prov d t vid pid status).Insurance_Claim_Payment_Date = ""
    ∧ (mkNonCompletedRow pat loc prov d t vid pid status).Treatment_Plan_ID = ""
    ∧ (mkNonCompletedRow pat loc prov d t vid pid status).Treatment_Plan_Creation_Date = ""
    ∧ (mkNonCompletedRow pat loc prov d t vid pid status).Treatment_Plan_Completion_Date = ""
    ∧ (mkNonCompletedRow pat loc prov d t vid pid status).Insurance_Provider
        = pat.insurance_provider := by
  repeat' constructor

/-- Any row emitted by procStep is a Completed-branch row or a
non-Completed-branch row for the same visit context. -/
theorem procStep_some_cases (pat : Patient) (loc : Location) (prov : Provider)
    (d : JsDate) (t vid pid status : String) (proc : Procedure) (rnd : FinRand)
    (st : GenState) (row : Row)
    (h : (procStep pat loc prov d t vid pid status proc rnd st).1 = some row) :
    (∃ plans, row = (mkCompletedRow pat loc prov d t vid pid proc rnd plans).1)
    ∨ row = mkNonCompletedRow pat loc prov d t vid pid status := by
  unfold procStep at h
  split at h
  · exact absurd h (by simp)
  · by_cases hs : status = "Completed"
    · simp only [hs, if_true] at h
      exact Or.inl ⟨st.plans, by injection h with h2; exact h2.symm⟩
    · simp only [hs, if_false] at h
      exact Or.inr (by injection h with h2; exact h2.symm)

/-- Lifting a per-branch row property through the procedure loop. -/
theorem procLoop_prop (P : Row → Prop) (v : VisitSpec) (i : ℕ) (status visitId : String)
    (hC : ∀ pid proc rnd plans,
      P (mkCompletedRow v.patient v.location v.provider v.visitDate
          v.appointmentTime visitId pid proc rnd plans).1)
    (hN : ∀ pid,
      P (mkNonCompletedRow v.patient v.location v.provider v.visitDate
          v.appointmentTime visitId pid status)) :
    ∀ n p st row, row ∈ (procLoop v i status visitId p n st).1 → P row := by
  intro n
  induction n with
  | zero => intro p st row h; simp [procLoop] at h
  | succ k ih =>
    intro p st row h
    simp only [procLoop] at h
    cases hcase : (procStep v.patient v.location v.provider v.visitDate
        v.appointmentTime visitId ("PROC" ++ padNum 6 (i * 10 + p + 1)) status
        (selectProcedure v.patient.age (v.procPicks.getD p defaultProcPick).branchRoll
          (v.procPicks.getD p defaultProcPick).innerPick
          (v.procPicks.getD p defaultProcPick).fallbackPick)
        (v.procPicks.getD p defaultProcPick).fin st).1 with
    | none =>
      rw [hcase] at h
      exact ih (p + 1) _ row h
    | some r =>
      rw [hcase] at h
      rcases List.mem_cons.mp h with h1 | h1
      · subst h1
        rcases procStep_some_cases _ _ _ _ _ _ _ _ _ _ _ _ hcase with ⟨plans, hp⟩ | hp
        · rw [hp]; exact hC _ _ _ _
        · rw [hp]; exact hN _
      · exact ih (p + 1) _ row h1

/-- Lifting a per-branch row property through one visit. -/
theorem visitStep_prop (P : Row → Prop) (v : VisitSpec) (i : ℕ) (st : GenState)
    (hC : ∀ vid pid proc rnd plans,
      P (mkCompletedRow v.patient v.location v.provider v.visitDate
          v.appointmentTime vid pid proc rnd plans).1)
    (hN : ∀ vid pid status,
      P (mkNonCompletedRow v.patient v.location v.provider v.visitDate
          v.appointmentTime vid pid status)) :
    ∀ row ∈ (visitStep v i st).1, P row := by
  intro row h
  exact procLoop_prop P v i _ _ (fun pid proc rnd plans => hC _ pid proc rnd plans)
    (fun pid => hN _ pid _) _ _ _ row h

/-- Lifting a per-branch row property through the whole generation loop. -/
theorem generateAppointmentData_prop (P : Row → Prop)
    (hC : ∀ pat loc prov d t vid pid proc rnd plans,
      P (mkCompletedRow pat loc prov d t vid pid proc rnd plans).1)
    (hN : ∀ pat loc prov d t vid pid status,
      P (mkNonCompletedRow pat loc prov d t vid pid status)) :
    ∀ visits row, row ∈ generateAppointmentData visits → P row := by
  have hgen : ∀ visits i0 st rows, rows ∈ genVisits visits i0 st →
      ∀ row ∈ rows, P row := by
    intro visits
    induction visits with
    | nil => intro i0 st rows h; simp [genVisits] at h
    | cons v rest ih =>
      intro i0 st rows h row hrow
      simp only [genVisits] at h
      rcases List.mem_cons.mp h with h1 | h1
      · subst h1
        exact visitStep_prop P v i0 st (fun vid pid proc rnd plans => hC _ _ _ _ _ _ _ _ _ _)
          (fun vid pid status => hN _ _ _ _ _ _ _ _) row hrow
      · exact ih _ _ _ h1 row hrow
  intro visits row h
  rcases List.mem_flatten.mp h with ⟨rows, hrows, hrow⟩
  exact hgen visits 0 initState rows hrows row hrow

/-- Lifting a property that relates a row to the visit it belongs to through
the generation loop, via the zip of the visit list with the per-visit groups. -/
theorem genVisits_zip_prop (Q : VisitSpec → Row → Prop)
    (h : ∀ v i st, ∀ row ∈ (visitStep v i st).1, Q v row) :
    ∀ (visits : List VisitSpec) (i0 : ℕ) (st : GenState) pr,
      pr ∈ visits.zip (genVisits visits i0 st) → ∀ row ∈ pr.2, Q pr.1 row := by
  intro visits
  induction visits with
  | nil => intro i0 st pr hpr; simp [genVisits] at hpr
  | cons v rest ih =>
    intro i0 st pr hpr row hrow
    simp only [genVisits, List.zip_cons_cons] at hpr
    rcases List.mem_cons.mp hpr with h1 | h1
    · subst h1; exact h v i0 st row hrow
    · exact ih (i0 + 1) _ pr h1 row hrow

/-- The if-condition of the recall gate evaluates to the months test for a
cleaning code with a recorded prior cleaning. -/
theorem isDueForRecall_cleaning (d0 d : JsDate) (code : String)
    (hclean : code = "D1110" ∨ code = "D1120") :
    isDueForRecall (some d0) code d = decide (5 ≤ JsDate.monthsSince d0 d) := by
  rcases hclean with h | h <;> subst h <;> simp [isDueForRecall]

theorem isDueForRecall_first (d : JsDate) (code : String) :
    isDueForRecall none code d = true := by
  unfold isDueForRecall
  split <;> rfl

end PatGen

/-! ## Claims C3, C4, C10, C5 -/

/-- Claim C3: for every emitted appointment row with Appointment_Status
Completed, Out_of_Pocket equals Patient_Responsibility minus Discount_Applied,
and Amount_Paid equals either 0 or Out_of_Pocket. -/
theorem C3_completed_rows_out_of_pocket :
    ∀ (visits : List PatGen.VisitSpec) (row : PatGen.Row),
      row ∈ PatGen.generateAppointmentData visits →
      row.Appointment_Status = "Completed" →
      row.Out_of_Pocket = row.Patient_Responsibility - row.Discount_Applied
      ∧ (row.Amount_Paid = 0 ∨ row.Amount_Paid = row.Out_of_Pocket) := by
  intro visits row hmem hst
  refine PatGen.generateAppointmentData_prop
    (fun r => r.Appointment_Status = "Completed" →
      r.Out_of_Pocket = r.Patient_Responsibility - r.Discount_Applied
      ∧ (r.Amount_Paid = 0 ∨ r.Amount_Paid = r.Out_of_Pocket))
    ?_ ?_ visits row hmem hst
  · intro pat loc prov d t vid pid proc rnd plans _
    have h := PatGen.mkCompletedRow_financials pat loc prov d t vid pid proc rnd plans
    exact ⟨h.2.1, h.2.2⟩
  · intro pat loc prov d t vid pid status _
    exact ⟨rfl, Or.inl rfl⟩

/-- Claim C4: every emitted row with status other than Completed has every
financial field at its zero/empty default: the monetary amounts, procedure
duration, completion rate and estimated cost are 0, and payment method and
status, the insurance-claim fields and the treatment-plan identifier and
date fields are empty strings. -/
theorem C4_noncompleted_rows_zero_defaults :
    ∀ (visits : List PatGen.VisitSpec) (row : PatGen.Row),
      row ∈ PatGen.generateAppointmentData visits →
      row.Appointment_Status ≠ "Completed" →
      row.Charged_Amount = 0 ∧ row.Insurance_Covered_Amount = 0
      ∧ row.Patient_Responsibility = 0 ∧ row.Discount_Applied = 0
      ∧ row.Out_of_Pocket = 0 ∧ row.Amount_Paid = 0
      ∧ row.Procedure_Duration = 0 ∧ row.Treatment_Plan_Completion_Rate = 0
      ∧ row.Estimated_Total_Cost = 0
      ∧ row.Payment_Method = "" ∧ row.Payment_Status = ""
      ∧ row.Insurance_Claim_Status = "" ∧ row.Insurance_Claim_Submission_Date = ""
      ∧ row.Insurance_Claim_Payment_Date = "" ∧ row.Treatment_Plan_ID = ""
      ∧ row.Treatment_Plan_Creation_Date = "" ∧ row.Treatment_Plan_Completion_Date = "" := by
  intro visits row hmem hst
  refine PatGen.generateAppointmentData_prop
    (fun r => r.Appointment_Status ≠ "Completed" →
      r.Charged_Amount = 0 ∧ r.Insurance_Covered_Amount = 0
      ∧ r.Patient_Responsibility = 0 ∧ r.Discount_Applied = 0
      ∧ r.Out_of_Pocket = 0 ∧ r.Amount_Paid = 0
      ∧ r.Procedure_Duration = 0 ∧ r.Treatment_Plan_Completion_Rate = 0
      ∧ r.Estimated_Total_Cost = 0
      ∧ r.Payment_Method = "" ∧ r.Payment_Status = ""
      ∧ r.Insurance_Claim_Status = "" ∧ r.Insurance_Claim_Submission_Date = ""
      ∧ r.Insurance_Claim_Payment_Date = "" ∧ r.Treatment_Plan_ID = ""
      ∧ r.Treatment_Plan_Creation_Date = "" ∧ r.Treatment_Plan_Completion_Date = "")
    ?_ ?_ visits row hmem hst
  · intro pat loc prov d t vid pid proc rnd plans hne
    exact absurd (PatGen.mkCompletedRow_financials pat loc prov d t vid pid proc rnd plans).1 hne
  · intro pat loc prov d t vid pid status _
    exact ⟨rfl, rfl, rfl, rfl, rfl, rfl, rfl, rfl, rfl, rfl, rfl, rfl, rfl, rfl, rfl, rfl, rfl⟩

/-- Claim C10: on every appointment row whose status is not Completed, the
Insurance_Provider field still carries the patient insurance carrier of the
visit (the carrier name, or No Insurance), not an empty default. -/
theorem C10_noncompleted_rows_insurance_provider :
    ∀ (visits : List PatGen.VisitSpec) pr,
      pr ∈ visits.zip (PatGen.genVisits visits 0 PatGen.initState) →
      ∀ row ∈ pr.2, row.Appointment_Status ≠ "Completed" →
        row.Insurance_Provider = pr.1.patient.insurance_provider := by
  intro visits pr hpr row hrow hst
  refine PatGen.genVisits_zip_prop
    (fun v r => r.Appointment_Status ≠ "Completed" →
      r.Insurance_Provider = v.patient.insurance_provider)
    ?_ visits 0 PatGen.initState pr hpr row hrow hst
  intro v i st r hr
  refine PatGen.visitStep_prop
    (fun r => r.Appointment_Status ≠ "Completed" →
      r.Insurance_Provider = v.patient.insurance_provider) v i st ?_ ?_ r hr
  · intro vid pid proc rnd plans hne
    exact absurd (PatGen.mkCompletedRow_financials v.patient v.location v.provider
      v.visitDate v.appointmentTime vid pid proc rnd plans).1 hne
  · intro vid pid status _
    rfl

/-- Claim C5: a cleaning procedure (code D1110 or D1120) is never emitted for
a visit dated less than 5 months (by calendar-month index) after the recorded
prior cleaning of that patient; a first cleaning always passes the gate; and
whenever a cleaning row is emitted the per-patient last-cleaning entry becomes
the visit date, independent of the appointment status. -/
theorem C5_recall_gating :
    ∀ (pat : PatGen.Patient) (loc : PatGen.Location) (prov : PatGen.Provider)
      (d : JsDate) (t vid pid status : String) (proc : PatGen.Procedure)
      (rnd : PatGen.FinRand) (st : PatGen.GenState),
      (proc.code = "D1110" ∨ proc.code = "D1120") →
      ((∀ d0, PatGen.assocFind st.lastCleaning pat.patient_id = some d0 →
          JsDate.monthIndex d < JsDate.monthIndex d0 + 5 →
          PatGen.procStep pat loc prov d t vid pid status proc rnd st = (none, st))
       ∧ (PatGen.assocFind st.lastCleaning pat.patient_id = none →
          ((PatGen.procStep pat loc prov d t vid pid status proc rnd st).1.isSome = true))
       ∧ (∀ row, (PatGen.procStep pat loc prov d t vid pid status proc rnd st).1 = some row →
          PatGen.assocFind
            (PatGen.procStep pat loc prov d t vid pid status proc rnd st).2.lastCleaning
            pat.patient_id = some d)) := by
  intro pat loc prov d t vid pid status proc rnd st hclean
  refine ⟨?_, ?_, ?_⟩
  · intro d0 hfind hlt
    have hdue : PatGen.isDueForRecall (PatGen.assocFind st.lastCleaning pat.patient_id)
        proc.code d = false := by
      rw [hfind, PatGen.isDueForRecall_cleaning d0 d proc.code hclean]
      have : ¬ (5 ≤ JsDate.monthsSince d0 d) := by
        rw [JsDate.monthsSince_eq]; omega
      simpa using this
    unfold PatGen.procStep
    rw [if_pos ⟨hclean, by simp [hdue]⟩]
  · intro hfind
    have hdue : PatGen.isDueForRecall (PatGen.assocFind st.lastCleaning pat.patient_id)
        proc.code d = true := by
      rw [hfind]; exact PatGen.isDueForRecall_first d proc.code
    unfold PatGen.procStep
    rw [if_neg (by simp [hdue])]
    by_cases hs : status = "Completed" <;> simp [hs]
  · intro row hrow
    by_cases hgate : (proc.code = "D1110" ∨ proc.code = "D1120")
        ∧ ¬ PatGen.isDueForRecall (PatGen.assocFind st.lastCleaning pat.patient_id)
              proc.code d
    · exfalso
      unfold PatGen.procStep at hrow
      rw [if_pos hgate] at hrow
      exact absurd hrow (by simp)
    · unfold PatGen.procStep
      rw [if_neg hgate]
      by_cases hs : status = "Completed"
      · simp only [hs, if_true]
        simp only [hclean, if_pos]
        exact PatGen.assocFind_assocSet_self st.lastCleaning pat.patient_id d
      · simp only [hs, if_false]
        simp only [hclean, if_pos]
        exact PatGen.assocFind_assocSet_self st.lastCleaning pat.patient_id d

/-! ### Concrete fixtures for the witnesses -/

def zeroFinRand : PatGen.FinRand := ⟨0, 0, 0, 0, 0, 0, 0, 0, 0, 0, 0, 0, 0⟩

def wPatient : PatGen.Patient :=
  ⟨"PAT0001", "James Smith", "Male", 30, "97201", ⟨2019, 0, 10⟩, "Delta Dental", true⟩

def wLocation : PatGen.Location := ⟨"LOC001", "Downtown Dental", 4.8⟩

def wProvider : PatGen.Provider :=
  ⟨"DR001", "Dr. Sarah Johnson", "Dentist", "LOC001", "General", 150, true⟩

/-- Adult common-procedure branch (0.5 < 0.6) picking catalog index 5, the
adult cleaning D1110. -/
def wCleaningPick : PatGen.ProcPick := ⟨0.5, 0.55, 0, zeroFinRand⟩

/-- Adult full-catalog branch (0.7 is not < 0.6) picking catalog index 0,
the diagnostic evaluation D0120. -/
def wCommonPick : PatGen.ProcPick := ⟨0.7, 0, 0, zeroFinRand⟩

/-- One Canceled visit (status draw 0.95) whose single procedure draw is the
cleaning D1110. -/
def wVisitCanceled : PatGen.VisitSpec :=
  ⟨wPatient, wLocation, wProvider, ⟨2024, 0, 15⟩, "09:00", 0.95, 0, [wCleaningPick]⟩

/-- The same visit one month later. -/
def wVisitCanceled2 : PatGen.VisitSpec :=
  ⟨wPatient, wLocation, wProvider, ⟨2024, 1, 15⟩, "09:00", 0.95, 0, [wCleaningPick]⟩

/-- One Completed visit (status draw 0.5) whose single procedure draw is D0120. -/
def wVisitCompleted : PatGen.VisitSpec :=
  ⟨wPatient, wLocation, wProvider, ⟨2024, 2, 10⟩, "10:00", 0.5, 0, [wCommonPick]⟩

def dummyRow : PatGen.Row :=
  PatGen.mkNonCompletedRow wPatient wLocation wProvider ⟨2024, 0, 1⟩ "08:00"
    "V000000" "PROC000000" "Canceled"

def c3Row : PatGen.Row :=
  (PatGen.generateAppointmentData [wVisitCompleted]).headD dummyRow

theorem C3_witness :
    c3Row ∈ PatGen.generateAppointmentData [wVisitCompleted]
    ∧ c3Row.Appointment_Status = "Completed"
    ∧ (c3Row.Out_of_Pocket = c3Row.Patient_Responsibility - c3Row.Discount_Applied
       ∧ (c3Row.Amount_Paid = 0 ∨ c3Row.Amount_Paid = c3Row.Out_of_Pocket)) := by
  have h1 : c3Row ∈ PatGen.generateAppointmentData [wVisitCompleted] := by decide
  have h2 : c3Row.Appointment_Status = "Completed" := by decide
  exact ⟨h1, h2, C3_completed_rows_out_of_pocket [wVisitCompleted] c3Row h1 h2⟩

def c4Row : PatGen.Row :=
  (PatGen.generateAppointmentData [wVisitCanceled]).headD dummyRow

theorem C4_witness :
    c4Row ∈ PatGen.generateAppointmentData [wVisitCanceled]
    ∧ c4Row.Appointment_Status ≠ "Completed"
    ∧ c4Row.Charged_Amount = 0 ∧ c4Row.Payment_Status = "" := by
  have h1 : c4Row ∈ PatGen.generateAppointmentData [wVisitCanceled] := by decide
  have h2 : c4Row.Appointment_Status ≠ "Completed" := by decide
  have h := C4_noncompleted_rows_zero_defaults [wVisitCanceled] c4Row h1 h2
  exact ⟨h1, h2, h.1, h.2.2.2.2.2.2.2.2.2.2.1⟩

def c10Group : List PatGen.Row :=
  (PatGen.genVisits [wVisitCanceled] 0 PatGen.initState).headD []

def c10Row : PatGen.Row := c10Group.headD dummyRow

theorem C10_witness :
    (wVisitCanceled, c10Group) ∈
        [wVisitCanceled].zip (PatGen.genVisits [wVisitCanceled] 0 PatGen.initState)
    ∧ c10Row ∈ c10Group
    ∧ c10Row.Appointment_Status ≠ "Completed"
    ∧ c10Row.Insurance_Provider = wVisitCanceled.patient.insurance_provider := by
  have h1 : (wVisitCanceled, c10Group) ∈
      [wVisitCanceled].zip (PatGen.genVisits [wVisitCanceled] 0 PatGen.initState) := by decide
  have h2 : c10Row ∈ c10Group := by decide
  have h3 : c10Row.Appointment_Status ≠ "Completed" := by decide
  exact ⟨h1, h2, h3,
    C10_noncompleted_rows_insurance_provider [wVisitCanceled] (wVisitCanceled, c10Group)
      h1 c10Row h2 h3⟩

def c5State : PatGen.GenState := ⟨[("PAT0001", ⟨2024, 0, 15⟩)], []⟩

def c5Proc : PatGen.Procedure :=
  ⟨"D1110", "Prophylaxis (Cleaning) - Adult", "Preventive", 110, 45⟩

theorem C5_witness :
    PatGen.procStep wPatient wLocation wProvider ⟨2024, 1, 15⟩ "09:00" "V000002"
      "PROC000011" "Canceled" c5Proc zeroFinRand c5State = (none, c5State) :=
  (C5_recall_gating wPatient wLocation wProvider ⟨2024, 1, 15⟩ "09:00" "V000002"
      "PROC000011" "Canceled" c5Proc zeroFinRand c5State (Or.inl (by decide))).1
    ⟨2024, 0, 15⟩ (by decide) (by decide)

/-! ## Claim C6: treatment plan completion rate -/

namespace PatGen

/-- In the existing-plan branch the emitted rate is the capped rounded ratio,
whether or not the plan closes. -/
theorem planStep_existing_rate (pid fd cat : String) (amt : ℤ)
    (plans : List (String × TreatmentPlan)) (r1 r2 r3 : ℚ) (p : TreatmentPlan)
    (hfind : assocFind plans pid = some p) :
    (planStep pid fd cat amt plans r1 r2 r3).1.rate
      = min 100 (jsRound ((((p.completedProcedures + 1 : ℤ) : ℚ)
          / ((p.totalProcedures : ℤ) : ℚ)) * 100)) := by
  unfold planStep
  rw [hfind]
  split
  · next e heq =>
    injection heq with h
    subst h
    dsimp only
    split <;> rfl
  · next heq => exact Option.noConfusion heq

/-- In the existing-plan branch the plan is deleted exactly when the emitted
rate is 100. -/
theorem planStep_existing_close (pid fd cat : String) (amt : ℤ)
    (plans : List (String × TreatmentPlan)) (r1 r2 r3 : ℚ) (p : TreatmentPlan)
    (hfind : assocFind plans pid = some p) :
    ((planStep pid fd cat amt plans r1 r2 r3).1.rate = 100
      ↔ assocFind (planStep pid fd cat amt plans r1 r2 r3).2 pid = none) := by
  unfold planStep
  rw [hfind]
  split
  · next e heq =>
    injection heq with h
    subst h
    dsimp only
    by_cases h100 : (100 : ℤ) ≤ min 100 (jsRound ((((p.completedProcedures + 1 : ℤ) : ℚ)
        / ((p.totalProcedures : ℤ) : ℚ)) * 100))
    · rw [if_pos h100]
      have heq100 : min 100 (jsRound ((((p.completedProcedures + 1 : ℤ) : ℚ)
          / ((p.totalProcedures : ℤ) : ℚ)) * 100)) = 100 :=
        le_antisymm (min_le_left _ _) h100
      exact ⟨fun _ => assocFind_assocErase_self plans pid, fun _ => heq100⟩
    · rw [if_neg h100]
      constructor
      · intro hr
        exact absurd (le_of_eq hr.symm) h100
      · intro hn
        rw [assocFind_assocSet_self] at hn
        exact Option.noConfusion hn
  · next heq => exact Option.noConfusion heq

/-- In the creation branch the plan is stored open with one completed
procedure, and the emitted rate is the rounded reciprocal of the drawn total. -/
theorem planStep_creation (pid fd cat : String) (amt : ℤ)
    (plans : List (String × TreatmentPlan)) (r1 r2 r3 : ℚ)
    (hnone : assocFind plans pid = none) (hroll : r1 < 0.3)
    (hcat : planCategories.contains cat = true) :
    (planStep pid fd cat amt plans r1 r2 r3).1.rate
      = jsRound (((1 : ℚ) / ((randomBetween r3 1 5 : ℤ) : ℚ)) * 100)
    ∧ assocFind (planStep pid fd cat amt plans r1 r2 r3).2 pid
      = some ⟨"TP" ++ padNum 4 (⌊r2 * 10000⌋).toNat, fd, randomBetween r3 1 5, 1,
          amt * randomBetween r3 1 5⟩ := by
  unfold planStep
  rw [hnone, if_pos ⟨hroll, hcat⟩]
  exact ⟨rfl, assocFind_assocSet_self plans pid _⟩

theorem jsRound_mono {x y : ℚ} (h : x ≤ y) : jsRound x ≤ jsRound y :=
  Int.floor_mono (add_le_add_right h _)

/-- The creation rate reaches 100 exactly for a single-procedure plan. -/
theorem creationRate_eq_100_iff (T : ℤ) (h1 : 1 ≤ T) (h5 : T ≤ 5) :
    (jsRound (((1 : ℚ) / (T : ℚ)) * 100) = 100 ↔ T = 1) := by
  interval_cases T <;> decide

end PatGen

/-- Claim C6 (amended): within one open treatment plan the emitted completion
rate is monotonically non-decreasing (across the creation row and every later
update row), and in the update branch it equals 100 exactly on the row that
deletes the plan; but the creation row of a plan whose drawn total is 1
carries rate 100 while leaving the plan open. -/
theorem C6_plan_rate_monotone_and_close :
    (∀ (pid fd fd2 cat cat2 : String) (amt amt2 : ℤ)
        (plans plans2 : List (String × PatGen.TreatmentPlan)) (r1 r2 r3 r4 r5 r6 : ℚ)
        (p q : PatGen.TreatmentPlan),
      PatGen.assocFind plans pid = some p → PatGen.assocFind plans2 pid = some q →
      q.totalProcedures = p.totalProcedures → 0 < p.totalProcedures →
      p.completedProcedures ≤ q.completedProcedures →
      (PatGen.planStep pid fd cat amt plans r1 r2 r3).1.rate
        ≤ (PatGen.planStep pid fd2 cat2 amt2 plans2 r4 r5 r6).1.rate)
    ∧ (∀ (pid fd cat : String) (amt : ℤ)
        (plans : List (String × PatGen.TreatmentPlan)) (r1 r2 r3 : ℚ)
        (p : PatGen.TreatmentPlan),
      PatGen.assocFind plans pid = some p →
      ((PatGen.planStep pid fd cat amt plans r1 r2 r3).1.rate = 100
        ↔ PatGen.assocFind (PatGen.planStep pid fd cat amt plans r1 r2 r3).2 pid = none))
    ∧ (∀ (pid fd cat : String) (amt : ℤ)
        (plans : List (String × PatGen.TreatmentPlan)) (r1 r2 r3 : ℚ),
      PatGen.assocFind plans pid = none → r1 < 0.3 →
      PatGen.planCategories.contains cat = true → 0 ≤ r3 → r3 < 1 →
      (((PatGen.planStep pid fd cat amt plans r1 r2 r3).1.rate = 100
          ↔ randomBetween r3 1 5 = 1)
        ∧ (PatGen.assocFind (PatGen.planStep pid fd cat amt plans r1 r2 r3).2 pid).isSome
            = true))
    ∧ (∀ (pid fd fd2 cat cat2 : String) (amt amt2 : ℤ)
        (plans : List (String × PatGen.TreatmentPlan)) (r1 r2 r3 r4 r5 r6 : ℚ),
      PatGen.assocFind plans pid = none → r1 < 0.3 →
      PatGen.planCategories.contains cat = true → 0 ≤ r3 → r3 < 1 →
      (PatGen.planStep pid fd cat amt plans r1 r2 r3).1.rate
        ≤ (PatGen.planStep pid fd2 cat2 amt2
            (PatGen.planStep pid fd cat amt plans r1 r2 r3).2 r4 r5 r6).1.rate) := by
  have hdivmono : ∀ (T : ℤ) (a b : ℚ), 0 < T → a ≤ b →
      (a / ((T : ℤ) : ℚ)) * 100 ≤ (b / ((T : ℤ) : ℚ)) * 100 := by
    intro T a b hT hab
    have hTq : (0 : ℚ) < ((T : ℤ) : ℚ) := by exact_mod_cast hT
    have h1 : a / ((T : ℤ) : ℚ) ≤ b / ((T : ℤ) : ℚ) := by gcongr
    linarith
  refine ⟨?_, ?_, ?_, ?_⟩
  · intro pid fd fd2 cat cat2 amt amt2 plans plans2 r1 r2 r3 r4 r5 r6 p q
      hp hq htot hpos hle
    rw [PatGen.planStep_existing_rate pid fd cat amt plans r1 r2 r3 p hp,
        PatGen.planStep_existing_rate pid fd2 cat2 amt2 plans2 r4 r5 r6 q hq, htot]
    exact min_le_min le_rfl (PatGen.jsRound_mono (hdivmono p.totalProcedures _ _ hpos
      (by exact_mod_cast (by omega : p.completedProcedures + 1 ≤ q.completedProcedures + 1))))
  · intro pid fd cat amt plans r1 r2 r3 p hp
    exact PatGen.planStep_existing_close pid fd cat amt plans r1 r2 r3 p hp
  · intro pid fd cat amt plans r1 r2 r3 hnone hroll hcat h0 h1
    obtain ⟨hc, hfind⟩ := PatGen.planStep_creation pid fd cat amt plans r1 r2 r3
      hnone hroll hcat
    obtain ⟨hT1, hT5⟩ := JsPrim.randomBetween_le r3 1 5 h0 h1 (by omega)
    refine ⟨?_, by rw [hfind]; rfl⟩
    rw [hc]
    exact PatGen.creationRate_eq_100_iff (randomBetween r3 1 5) hT1 hT5
  · intro pid fd fd2 cat cat2 amt amt2 plans r1 r2 r3 r4 r5 r6 hnone hroll hcat h0 h1
    obtain ⟨hc, hfind⟩ := PatGen.planStep_creation pid fd cat amt plans r1 r2 r3
      hnone hroll hcat
    obtain ⟨hT1, hT5⟩ := JsPrim.randomBetween_le r3 1 5 h0 h1 (by omega)
    set T : ℤ := randomBetween r3 1 5 with hTdef
    rw [hc, PatGen.planStep_existing_rate pid fd2 cat2 amt2 _ r4 r5 r6 _ hfind]
    have hTpos : (0 : ℤ) < T := by omega
    have hTq : (0 : ℚ) < (T : ℚ) := by exact_mod_cast hTpos
    refine le_min ?_ ?_
    · have h100 : ((1 : ℚ) / (T : ℚ)) * 100 ≤ 100 := by
        have hinv : (1 : ℚ) / (T : ℚ) ≤ 1 := by
          rw [div_le_one hTq]; exact_mod_cast hT1
        nlinarith
      have := PatGen.jsRound_mono h100
      have h100v : jsRound (100 : ℚ) = 100 := by decide
      omega
    · refine PatGen.jsRound_mono ?_
      have := hdivmono T 1 (((1 : ℤ) + 1 : ℤ) : ℚ) hTpos (by norm_num)
      convert this using 3

theorem C6_counterexample :
    ¬ (∀ (pid fd cat : String) (amt : ℤ)
        (plans : List (String × PatGen.TreatmentPlan)) (r1 r2 r3 : ℚ),
        (PatGen.planStep pid fd cat amt plans r1 r2 r3).1.rate = 100 →
        PatGen.assocFind (PatGen.planStep pid fd cat amt plans r1 r2 r3).2 pid = none) := by
  intro h
  exact absurd (h "PAT0001" "2024-01-15" "Restorative" 100 [] 0.1 0 0 (by decide))
    (by decide)

theorem C6_witness :
    (((PatGen.planStep "PAT0001" "2024-01-15" "Restorative" 100 [] 0.1 0.5 0.5).1.rate = 100
        ↔ randomBetween (0.5 : ℚ) 1 5 = 1)
      ∧ (PatGen.assocFind
          (PatGen.planStep "PAT0001" "2024-01-15" "Restorative" 100 [] 0.1 0.5 0.5).2
          "PAT0001").isSome = true) :=
  C6_plan_rate_monotone_and_close.2.2.1 "PAT0001" "2024-01-15" "Restorative" 100 []
    0.1 0.5 0.5 (by decide) (by decide) (by decide) (by decide) (by decide)

/-! ## Lemmas on the Operations Generator index -/

namespace OpsGen

theorem updateDayMetrics_totalDuration (m : DayMetrics) (r : AppRow) :
    (updateDayMetrics m r).totalDuration
      = m.totalDuration
        + (if r.Appointment_Status = "Completed" then r.Procedure_Duration else 0) := by
  unfold updateDayMetrics
  dsimp only
  split_ifs <;> rfl

theorem updateDayMetrics_chargedAmount (m : DayMetrics) (r : AppRow) :
    (updateDayMetrics m r).chargedAmount
      = m.chargedAmount
        + (if r.Appointment_Status = "Completed" then r.Charged_Amount else 0) := by
  unfold updateDayMetrics
  dsimp only
  split_ifs <;> rfl

theorem foldl_totalDuration_mono (l : List AppRow) (m0 : DayMetrics) :
    m0.totalDuration ≤ (l.foldl updateDayMetrics m0).totalDuration := by
  induction l generalizing m0 with
  | nil => simp
  | cons a t ih =>
    simp only [List.foldl_cons]
    calc m0.totalDuration ≤ (updateDayMetrics m0 a).totalDuration := by
          rw [updateDayMetrics_totalDuration]; omega
      _ ≤ _ := ih _

theorem foldl_chargedAmount_mono (l : List AppRow) (m0 : DayMetrics) :
    m0.chargedAmount ≤ (l.foldl updateDayMetrics m0).chargedAmount := by
  induction l generalizing m0 with
  | nil => simp
  | cons a t ih =>
    simp only [List.foldl_cons]
    calc m0.chargedAmount ≤ (updateDayMetrics m0 a).chargedAmount := by
          rw [updateDayMetrics_chargedAmount]; omega
      _ ≤ _ := ih _

theorem foldl_totalDuration_pos (l : List AppRow) (m0 : DayMetrics) (r0 : AppRow)
    (hmem : r0 ∈ l) (hc : r0.Appointment_Status = "Completed")
    (hd : 0 < r0.Procedure_Duration) :
    0 < (l.foldl updateDayMetrics m0).totalDuration := by
  induction l generalizing m0 with
  | nil => cases hmem
  | cons a t ih =>
    simp only [List.foldl_cons]
    rcases List.mem_cons.mp hmem with h | h
    · subst h
      have h1 : 0 < (updateDayMetrics m0 r0).totalDuration := by
        rw [updateDayMetrics_totalDuration, if_pos hc]; omega
      exact lt_of_lt_of_le h1 (foldl_totalDuration_mono t _)
    · exact ih _ h

theorem foldl_chargedAmount_pos (l : List AppRow) (m0 : DayMetrics) (r0 : AppRow)
    (hmem : r0 ∈ l) (hc : r0.Appointment_Status = "Completed")
    (hch : 0 < r0.Charged_Amount) :
    0 < (l.foldl updateDayMetrics m0).chargedAmount := by
  induction l generalizing m0 with
  | nil => cases hmem
  | cons a t ih =>
    simp only [List.foldl_cons]
    rcases List.mem_cons.mp hmem with h | h
    · subst h
      have h1 : 0 < (updateDayMetrics m0 r0).chargedAmount := by
        rw [updateDayMetrics_chargedAmount, if_pos hc]; omega
      exact lt_of_lt_of_le h1 (foldl_chargedAmount_mono t _)
    · exact ih _ h

/-- A witnessing Completed row with positive duration and charge makes the
bucket sums positive. -/
theorem appointmentMetricsFor_pos (rows : List AppRow) (d l : String) (r0 : AppRow)
    (hmem : r0 ∈ rows) (hmatch : rowMatches d l r0 = true)
    (hc : r0.Appointment_Status = "Completed")
    (hd : 0 < r0.Procedure_Duration) (hch : 0 < r0.Charged_Amount) :
    0 < (appointmentMetricsFor rows d l).totalDuration
    ∧ 0 < (appointmentMetricsFor rows d l).chargedAmount := by
  have hany : rows.any (rowMatches d l) = true :=
    List.any_eq_true.mpr ⟨r0, hmem, hmatch⟩
  have hmem2 : r0 ∈ rows.filter (rowMatches d l) :=
    List.mem_filter.mpr ⟨hmem, hmatch⟩
  unfold appointmentMetricsFor appointmentBucket
  rw [if_pos hany]
  exact ⟨foldl_totalDuration_pos _ _ r0 hmem2 hc hd,
    foldl_chargedAmount_pos _ _ r0 hmem2 hc hch⟩

/-- No matching row means no bucket at all. -/
theorem appointmentBucket_eq_none (rows : List AppRow) (d l : String)
    (h : ∀ r ∈ rows, rowMatches d l r = false) :
    appointmentBucket rows d l = none := by
  unfold appointmentBucket
  rw [if_neg]
  intro hc
  rcases List.any_eq_true.mp hc with ⟨r, hr, hmatch⟩
  rw [h r hr] at hmatch
  cases hmatch

theorem appointmentMetricsFor_empty (rows : List AppRow) (d l : String)
    (h : ∀ r ∈ rows, rowMatches d l r = false) :
    appointmentMetricsFor rows d l = emptyDayMetrics := by
  unfold appointmentMetricsFor
  rw [appointmentBucket_eq_none rows d l h]
  rfl

theorem dailyClaimsSubmittedFor_eq_zero (m : DayMetrics) (hc : m.completed = 0) :
    dailyClaimsSubmittedFor m = 0 := by
  unfold dailyClaimsSubmittedFor
  rw [hc]
  decide

theorem dailyClaimsProcessedFor_eq_zero (m : DayMetrics) (r : ℚ) (hc : m.completed = 0) :
    dailyClaimsProcessedFor m r = 0 := by
  unfold dailyClaimsProcessedFor
  rw [dailyClaimsSubmittedFor_eq_zero m hc]
  simp only [Int.cast_zero, zero_mul]
  decide

end OpsGen

/-! ## Claim C7 -/

/-- Claim C7: when the rebuilt (date, location) bucket holds a Completed row
with positive duration and charged amount, the daily chair utilization and
collection rate are derived from the bucket sums (capped duration ratio;
paid over charged) for every random draw, while a (date, location) with no
rows in the upstream file has no bucket and both metrics take the synthetic
location-target formulas. -/
theorem C7_derived_vs_synthetic_branch :
    ∀ (rows : List OpsGen.AppRow) (d l : String) (loc : OpsGen.OpsLocation)
      (year : ℤ) (isSat : Bool) (rU rC : ℚ),
      ((∃ r0 ∈ rows, OpsGen.rowMatches d l r0 = true
          ∧ r0.Appointment_Status = "Completed"
          ∧ 0 < r0.Procedure_Duration ∧ 0 < r0.Charged_Amount) →
        OpsGen.chairUtilizationFor (OpsGen.appointmentMetricsFor rows d l) loc year isSat rU
            = min 0.95 (((OpsGen.appointmentMetricsFor rows d l).totalDuration : ℚ)
                / OpsGen.availableChairMinutes loc isSat)
        ∧ OpsGen.actualCollectionRateFor (OpsGen.appointmentMetricsFor rows d l) loc rC
            = ((OpsGen.appointmentMetricsFor rows d l).amountPaid : ℚ)
                / ((OpsGen.appointmentMetricsFor rows d l).chargedAmount : ℚ))
      ∧ ((∀ r ∈ rows, OpsGen.rowMatches d l r = false) →
        OpsGen.appointmentBucket rows d l = none
        ∧ OpsGen.chairUtilizationFor (OpsGen.appointmentMetricsFor rows d l) loc year isSat rU
            = OpsGen.chairUtilizationSynthetic loc year rU
        ∧ OpsGen.actualCollectionRateFor (OpsGen.appointmentMetricsFor rows d l) loc rC
            = OpsGen.collectionRateSynthetic loc rC) := by
  intro rows d l loc year isSat rU rC
  constructor
  · rintro ⟨r0, hmem, hmatch, hc, hd, hch⟩
    obtain ⟨hdur, hcha⟩ :=
      OpsGen.appointmentMetricsFor_pos rows d l r0 hmem hmatch hc hd hch
    constructor
    · unfold OpsGen.chairUtilizationFor
      rw [if_pos hdur]
    · unfold OpsGen.actualCollectionRateFor
      rw [if_pos hcha]
  · intro hnone
    have hempty := OpsGen.appointmentMetricsFor_empty rows d l hnone
    refine ⟨OpsGen.appointmentBucket_eq_none rows d l hnone, ?_, ?_⟩
    · unfold OpsGen.chairUtilizationFor
      rw [hempty]
      rfl
    · unfold OpsGen.actualCollectionRateFor
      rw [hempty]
      rfl

/-- A concrete Completed upstream row for (2024-03-05, LOC001). -/
def c7Row : OpsGen.AppRow :=
  ⟨"2024-03-05", "LOC001", "Completed", 45, 200, 150, 50, 200, "D1110",
   "Prophylaxis (Cleaning) - Adult", "Preventive", "false"⟩

def c7Loc : OpsGen.OpsLocation :=
  ⟨"LOC001", "Downtown Dental", 5, 9, 8, 0.85, 0.92, 30, 0.05⟩

theorem C7_witness :
    OpsGen.chairUtilizationFor (OpsGen.appointmentMetricsFor [c7Row] "2024-03-05" "LOC001")
        c7Loc 2024 false (1/2)
      = min 0.95 (((OpsGen.appointmentMetricsFor [c7Row] "2024-03-05" "LOC001").totalDuration : ℚ)
          / OpsGen.availableChairMinutes c7Loc false)
    ∧ OpsGen.actualCollectionRateFor (OpsGen.appointmentMetricsFor [c7Row] "2024-03-05" "LOC001")
        c7Loc (1/2)
      = ((OpsGen.appointmentMetricsFor [c7Row] "2024-03-05" "LOC001").amountPaid : ℚ)
          / ((OpsGen.appointmentMetricsFor [c7Row] "2024-03-05" "LOC001").chargedAmount : ℚ) :=
  (C7_derived_vs_synthetic_branch [c7Row] "2024-03-05" "LOC001" c7Loc 2024 false (1/2) (1/2)).1
    ⟨c7Row, by decide, by decide, by decide, by decide, by decide⟩

/-! ## Claim C9 -/

/-- Claim C9 (amended): the guarded daily rates fall back to 0 on an empty
denominator instead of dividing, but Insurance_Denial_Rate in the Operations
Generator divides with no check and is non-finite (NaN) on every day whose
bucket has no completed appointment, for every random draw; likewise the
Financial Generator divides Case_Acceptance_Rate, Treatment_Completion_Rate
and Revenue_Per_Patient by possibly-zero counts with no check. -/
theorem C9_division_guards :
    (∀ m : OpsGen.DayMetrics, m.total = 0 →
      OpsGen.cancellationRateFor m = 0 ∧ OpsGen.noShowRateFor m = 0)
    ∧ (∀ (m : OpsGen.DayMetrics) (r r2 : ℚ), 0 < OpsGen.dailyClaimsProcessedFor m r →
      (OpsGen.insuranceDenialRateFor m r r2).isSome = true)
    ∧ (∀ (m : OpsGen.DayMetrics) (r r2 : ℚ), m.completed = 0 →
      OpsGen.insuranceDenialRateFor m r r2 = none)
    ∧ (∀ accepted : ℤ, FinGen.caseAcceptanceRateFor accepted 0 = none)
    ∧ (∀ completed : ℤ, FinGen.treatmentCompletionRateFor completed 0 = none)
    ∧ (∀ rev : ℤ, FinGen.revenuePerPatientFor rev 0 = none) := by
  refine ⟨?_, ?_, ?_, ?_, ?_, ?_⟩
  · intro m hm
    constructor
    · unfold OpsGen.cancellationRateFor
      rw [if_neg (by omega)]
    · unfold OpsGen.noShowRateFor
      rw [if_neg (by omega)]
  · intro m r r2 hpos
    have hne : ((OpsGen.dailyClaimsProcessedFor m r : ℤ) : ℚ) ≠ 0 := by
      have : (0 : ℚ) < ((OpsGen.dailyClaimsProcessedFor m r : ℤ) : ℚ) := by
        exact_mod_cast hpos
      exact ne_of_gt this
    unfold OpsGen.insuranceDenialRateFor jsDiv
    rw [if_neg hne]
    rfl
  · intro m r r2 hc
    unfold OpsGen.insuranceDenialRateFor jsDiv
    rw [OpsGen.dailyClaimsProcessedFor_eq_zero m r hc]
    rw [if_pos (by norm_num)]
  · intro accepted
    unfold FinGen.caseAcceptanceRateFor jsDiv
    rw [if_pos (by norm_num)]
  · intro completed
    unfold FinGen.treatmentCompletionRateFor jsDiv
    rw [if_pos (by norm_num)]
  · intro rev
    unfold FinGen.revenuePerPatientFor jsDiv
    rw [if_pos (by norm_num)]

/-- On a day with no upstream rows for its (date, location) — here an empty
upstream file — the emitted Insurance_Denial_Rate is the division 0 / 0,
a non-finite (NaN) value, contradicting the claim that every emitted ratio
is preceded by a non-zero denominator check and every emitted value finite. -/
theorem C9_counterexample :
    ¬ (∀ (rows : List OpsGen.AppRow) (d l : String) (r r2 : ℚ),
        (OpsGen.insuranceDenialRateFor (OpsGen.appointmentMetricsFor rows d l) r r2).isSome
          = true) := by
  intro h
  exact absurd (h [] "2024-03-06" "LOC001" (1/2) (1/2)) (by decide)

theorem C9_witness :
    (0 : ℤ) < OpsGen.dailyClaimsProcessedFor (OpsGen.appointmentMetricsFor [c7Row]
        "2024-03-05" "LOC001") (1/2)
    ∧ (OpsGen.insuranceDenialRateFor (OpsGen.appointmentMetricsFor [c7Row]
        "2024-03-05" "LOC001") (1/2) (1/2)).isSome = true := by
  refine ⟨by decide, ?_⟩
  exact C9_division_guards.2.1 (OpsGen.appointmentMetricsFor [c7Row] "2024-03-05" "LOC001")
    (1/2) (1/2) (by decide)

/-! ## Claim C2 -/

/-- Claim C2 (amended): the Financial Generator treats a missing upstream file
as recoverable — the aggregation index stays empty and every lookup misses,
so the synthetic fallback arms fire — but the Operations Generator does not:
its readAppointmentData rejects when Pat_App_Data.csv is absent, the awaited
rejection is caught by the try/catch in main, and the run ends without
writing any operations output. -/
theorem C2_missing_file_behaviour :
    (∀ (present : List String) (rows : List OpsGen.AppRow),
      operationsInputFilename ∉ present → OpsGen.opsRunResult present rows = none)
    ∧ (∀ (present : List String) (rows : List OpsGen.AppRow),
      operationsInputFilename ∈ present → OpsGen.opsRunResult present rows = some rows)
    ∧ (∀ (present : List String) (rows : List FinGen.FinAppRow) (loc : String) (y mo : ℤ),
      financialAppointmentInputFilename ∉ present →
      FinGen.finAppointmentBucket present rows loc y mo = none)
    ∧ (∀ (present : List String) (rows : List FinGen.OpsRow) (loc : String) (y mo : ℤ),
      financialOperationsInputFilename ∉ present →
      FinGen.finOperationsBucket present rows loc y mo = none)
    ∧ (∀ (loc : FinGen.FinLocation) (r seasonal growth : ℚ),
      FinGen.totalRevenueFor none loc r seasonal growth
        = FinGen.totalRevenueSynthetic loc r seasonal growth) := by
  refine ⟨?_, ?_, ?_, ?_, ?_⟩
  · intro present rows hnotin
    unfold OpsGen.opsRunResult OpsGen.readAppointmentData
    rw [if_neg hnotin]
  · intro present rows hin
    unfold OpsGen.opsRunResult OpsGen.readAppointmentData
    rw [if_pos hin]
  · intro present rows loc y mo hnotin
    unfold FinGen.finAppointmentBucket
    rw [if_neg hnotin]
  · intro present rows loc y mo hnotin
    unfold FinGen.finOperationsBucket
    rw [if_neg hnotin]
  · intro loc r seasonal growth
    rfl

/-- Run the Operations Generator with no Pat_App_Data.csv in the working
directory: the run aborts in the catch block and produces no output, against
the claim that it still produces and writes its complete operations output. -/
theorem C2_counterexample : ¬ ((OpsGen.opsRunResult [] []).isSome = true) := by
  decide

theorem C2_witness :
    operationsInputFilename ∉ [financialOutputFilename]
    ∧ OpsGen.opsRunResult [financialOutputFilename] [c7Row] = none :=
  ⟨by decide, C2_missing_file_behaviour.1 [financialOutputFilename] [c7Row] (by decide)⟩

/-! ## Claim C1 -/

/-- Claim C1 (amended): the Financial Generator probes Operations_Data.csv
while the Operations Generator writes Dental_Operations_Data.csv, so after a
full pipeline run the operations index is empty and no financial metric takes
its operations-derived arm: clinical and administrative labor cost and chair
utilization take their synthetic arms, while the collection rate and the
patient-visit counts fall back to appointment-derived values whenever the
appointment index has data for the month (synthetic only when it does not). -/
theorem C1_operations_filename_mismatch :
    financialOperationsInputFilename ≠ operationsOutputFilename
    ∧ financialOperationsInputFilename ∉ postPipelineFiles
    ∧ (∀ (rows : List FinGen.OpsRow) (loc : String) (y mo : ℤ),
      FinGen.finOperationsBucket postPipelineFiles rows loc y mo = none)
    ∧ (∀ (rev : ℤ) (r : ℚ),
      FinGen.laborClinicalFor none rev r = FinGen.laborClinicalSynthetic rev r)
    ∧ (∀ (rev : ℤ) (r : ℚ),
      FinGen.laborAdministrativeFor none rev r = FinGen.laborAdministrativeSynthetic rev r)
    ∧ (∀ r : ℚ, FinGen.finChairUtilizationFor none r = randomFloatBetween r 0.7 0.9)
    ∧ (∀ (a : FinGen.ApptMonth) (loc : FinGen.FinLocation) (r : ℚ),
      0 < a.totalChargedAmount →
      FinGen.finCollectionRateFor none (some a) loc r
        = (a.totalAmountPaid : ℚ) / (a.totalChargedAmount : ℚ))
    ∧ (∀ (loc : FinGen.FinLocation) (r : ℚ),
      FinGen.finCollectionRateFor none none loc r = FinGen.finCollectionRateSynthetic loc r)
    ∧ (∀ (n : ℤ) (r : ℚ),
      (FinGen.patientVisitsFor none n r).1 = jsRound ((n : ℚ) * 0.7)) := by
  refine ⟨by decide, by decide, ?_, ?_, ?_, ?_, ?_, ?_, ?_⟩
  · intro rows loc y mo
    unfold FinGen.finOperationsBucket
    rw [if_neg (by decide)]
  · intro rev r; rfl
  · intro rev r; rfl
  · intro r; rfl
  · intro a loc r hpos
    show FinGen.finCollectionRateFallback (some a) loc r = _
    unfold FinGen.finCollectionRateFallback
    dsimp only
    rw [if_pos hpos]
  · intro loc r; rfl
  · intro n r; rfl

def c1Loc : FinGen.FinLocation := ⟨"LOC001", "Downtown Dental", 3200, 12800, 5, 0.85, 0.92⟩

/-- An appointment bucket as rebuilt from one Completed row with charged 200
and paid 150. -/
def c1ApptMonth : FinGen.ApptMonth :=
  ⟨1, 1, 0, 0, 200, 0, 150, [("Diagnostic", 1)], [("Delta Dental", 1)]⟩

/-- After the full pipeline the operations lookup misses, and the emitted
collection rate is the appointment-derived 150/200 = 3/4, not the synthetic
target-based arm (0.9 for this location and draw): the claim that every
operations-derived metric takes its synthetic fallback arm is false. -/
theorem C1_counterexample :
    FinGen.finOperationsBucket postPipelineFiles [] "LOC001" 2024 3 = none
    ∧ FinGen.finCollectionRateFor none (some c1ApptMonth) c1Loc (1/2) = 3/4
    ∧ FinGen.finCollectionRateSynthetic c1Loc (1/2) = 9/10
    ∧ FinGen.finCollectionRateFor none (some c1ApptMonth) c1Loc (1/2)
        ≠ FinGen.finCollectionRateSynthetic c1Loc (1/2) := by
  refine ⟨by decide, by decide, by decide, by decide⟩

theorem C1_witness :
    (0 : ℕ) < c1ApptMonth.totalChargedAmount
    ∧ FinGen.finCollectionRateFor none (some c1ApptMonth) c1Loc (1/2)
        = (c1ApptMonth.totalAmountPaid : ℚ) / (c1ApptMonth.totalChargedAmount : ℚ) :=
  ⟨by decide, C1_operations_filename_mismatch.2.2.2.2.2.2.1 c1ApptMonth c1Loc (1/2) (by decide)⟩

/-! ## Claim C8 -/

namespace PatGen

theorem procLoop_length (v : VisitSpec) (i : ℕ) (status visitId : String) :
    ∀ (n p : ℕ) (st : GenState), (procLoop v i status visitId p n st).1.length ≤ n := by
  intro n
  induction n with
  | zero => intro p st; simp [procLoop]
  | succ k ih =>
    intro p st
    simp only [procLoop]
    split
    · next r heq =>
      simp only [List.length_cons]
      exact Nat.succ_le_succ (ih (p + 1) _)
    · next heq =>
      exact le_trans (ih (p + 1) _) (Nat.le_succ k)

theorem visitStep_length (v : VisitSpec) (i : ℕ) (st : GenState)
    (h0 : 0 ≤ v.numProcsPick) (h1 : v.numProcsPick < 1) :
    (visitStep v i st).1.length ≤ 3 := by
  unfold visitStep
  have hb := JsPrim.randomBetween_le v.numProcsPick 1 3 h0 h1 (by omega)
  have h3 : (randomBetween v.numProcsPick 1 3).toNat ≤ 3 := by omega
  exact le_trans
    (procLoop_length v i (appointmentStatusFor v.statusPick) ("V" ++ padNum 6 (i + 1))
      (randomBetween v.numProcsPick 1 3).toNat 0 st) h3

theorem visitStep_visit_id (v : VisitSpec) (i : ℕ) (st : GenState) :
    ∀ row ∈ (visitStep v i st).1, row.Visit_ID = "V" ++ padNum 6 (i + 1) := by
  intro row hrow
  unfold visitStep at hrow
  exact procLoop_prop (fun r => r.Visit_ID = "V" ++ padNum 6 (i + 1)) v i _ _
    (fun _ _ _ _ => rfl) (fun _ => rfl) _ _ _ row hrow

/-- Per-visit bounds along the generation loop: each group holds at most 3
rows and every row carries the Visit_ID of its visit index. -/
theorem genVisits_bounds :
    ∀ (visits : List VisitSpec) (i0 : ℕ) (st : GenState),
      (∀ v ∈ visits, 0 ≤ v.numProcsPick ∧ v.numProcsPick < 1) →
      ∀ pr ∈ (List.enumFrom i0 visits).zip (genVisits visits i0 st),
        pr.2.length ≤ 3
        ∧ ∀ row ∈ pr.2, row.Visit_ID = "V" ++ padNum 6 (pr.1.1 + 1) := by
  intro visits
  induction visits with
  | nil => intro i0 st hv pr hpr; simp [genVisits] at hpr
  | cons v rest ih =>
    intro i0 st hv pr hpr
    simp only [List.enumFrom, genVisits, List.zip_cons_cons] at hpr
    rcases List.mem_cons.mp hpr with h1 | h1
    · subst h1
      refine ⟨visitStep_length v i0 st (hv v (by simp)).1 (hv v (by simp)).2, ?_⟩
      intro row hrow
      exact visitStep_visit_id v i0 st row hrow
    · exact ih (i0 + 1) _ (fun u hu => hv u (by simp [hu])) pr h1

theorem genVisits_total_length :
    ∀ (visits : List VisitSpec) (i0 : ℕ) (st : GenState),
      (∀ v ∈ visits, 0 ≤ v.numProcsPick ∧ v.numProcsPick < 1) →
      (genVisits visits i0 st).flatten.length ≤ 3 * visits.length := by
  intro visits
  induction visits with
  | nil => intro i0 st hv; simp [genVisits]
  | cons v rest ih =>
    intro i0 st hv
    simp only [genVisits, List.flatten_cons, List.length_append, List.length_cons]
    have h1 : (visitStep v i0 st).1.length ≤ 3 :=
      visitStep_length v i0 st (hv v (by simp)).1 (hv v (by simp)).2
    have h2 := ih (i0 + 1) (visitStep v i0 st).2 (fun u hu => hv u (by simp [hu]))
    omega

end PatGen

/-- Claim C8 (amended): for any run of the Appointment Generator with valid
procedure-count draws, the output holds at most NUM_RECORDS * 3 rows, every
visit emits between 0 and 3 rows, and each emitted row carries the Visit_ID
of its visit; a visit whose every drawn procedure is a recall-gated cleaning
emits no rows, so its Visit_ID can be absent from the output. -/
theorem C8_visit_rows_bounds :
    ∀ (visits : List PatGen.VisitSpec),
      (∀ v ∈ visits, 0 ≤ v.numProcsPick ∧ v.numProcsPick < 1) →
      (PatGen.generateAppointmentData visits).length ≤ 3 * visits.length
      ∧ (∀ pr ∈ (List.enumFrom 0 visits).zip
            (PatGen.genVisits visits 0 PatGen.initState),
          pr.2.length ≤ 3
          ∧ ∀ row ∈ pr.2, row.Visit_ID = "V" ++ padNum 6 (pr.1.1 + 1)) := by
  intro visits hv
  exact ⟨PatGen.genVisits_total_length visits 0 PatGen.initState hv,
    PatGen.genVisits_bounds visits 0 PatGen.initState hv⟩

/-- A 10000-visit run (the NUM_RECORDS of the source) in which the second
visit draws a single recall-gated cleaning and emits zero rows, refuting the
claim that every generated visit contributes between 1 and 3 rows (and hence
that every Visit_ID appears in the output). -/
def c8Run : List PatGen.VisitSpec :=
  wVisitCanceled :: wVisitCanceled2 :: List.replicate 9998 wVisitCanceled

theorem C8_counterexample :
    ¬ (∀ (visits : List PatGen.VisitSpec),
        (∀ v ∈ visits, 0 ≤ v.numProcsPick ∧ v.numProcsPick < 1) →
        visits.length = 10000 →
        ∀ rows ∈ PatGen.genVisits visits 0 PatGen.initState, 1 ≤ rows.length) := by
  intro h
  have hvalid : ∀ v ∈ c8Run, 0 ≤ v.numProcsPick ∧ v.numProcsPick < 1 := by
    intro u hu
    have hcases : u = wVisitCanceled ∨ u = wVisitCanceled2 := by
      rcases List.mem_cons.mp hu with h1 | hu2
      · exact Or.inl h1
      rcases List.mem_cons.mp hu2 with h1 | hu3
      · exact Or.inr h1
      · exact Or.inl (List.eq_of_mem_replicate hu3)
    rcases hcases with h1 | h1 <;> subst h1 <;> exact ⟨by decide, by decide⟩
  have hlen : c8Run.length = 10000 := by
    unfold c8Run
    simp only [List.length_cons, List.length_replicate]
  have hg2 : (PatGen.visitStep wVisitCanceled2 1
      (PatGen.visitStep wVisitCanceled 0 PatGen.initState).2).1 = [] := by decide
  have hunfold : PatGen.genVisits c8Run 0 PatGen.initState
      = (PatGen.visitStep wVisitCanceled 0 PatGen.initState).1
        :: (PatGen.visitStep wVisitCanceled2 1
            (PatGen.visitStep wVisitCanceled 0 PatGen.initState).2).1
        :: PatGen.genVisits (List.replicate 9998 wVisitCanceled) 2
            (PatGen.visitStep wVisitCanceled2 1
              (PatGen.visitStep wVisitCanceled 0 PatGen.initState).2).2 := rfl
  have hmem : ([] : List PatGen.Row) ∈ PatGen.genVisits c8Run 0 PatGen.initState := by
    rw [hunfold, hg2]
    exact List.mem_cons_of_mem _ (List.mem_cons_self _ _)
  exact absurd (h c8Run hvalid hlen [] hmem) (by decide)

theorem C8_witness :
    (∀ v ∈ [wVisitCompleted], 0 ≤ v.numProcsPick ∧ v.numProcsPick < 1)
    ∧ (PatGen.generateAppointmentData [wVisitCompleted]).length
        ≤ 3 * [wVisitCompleted].length := by
  have hv : ∀ v ∈ [wVisitCompleted], 0 ≤ v.numProcsPick ∧ v.numProcsPick < 1 := by
    decide
  exact ⟨hv, (C8_visit_rows_bounds [wVisitCompleted] hv).1⟩
